import Mathlib

/-!
# VulkanDeviceState: a shallow embedding

The device-state layer of the renderer (`VulkanDeviceState.cpp`) is embedded
as pure functions over explicit state.  Calls into the graphics API are
recorded as values (what is handed to the queue or the device), and what the
API answers is an argument of the function that makes the call.

Conventions
* a C++ pointer is an `Option`: `none` is `nullptr`;
* dereferencing `nullptr`, indexing outside an array and a failed `assert`
  make the embedded function return `none`;
* `unsigned int` / `uint32_t` values are natural numbers, reduced modulo
  `2 ^ 32` wherever the source computes with them;
* a shift of a 32-bit value by 32 or more has no defined value: the shifted
  value is `none`.
-/

namespace rh.engine

/-! ## Results of API calls -/

/-- The result codes of the graphics API that the embedded calls can report. -/
inductive VkResult
  | eSuccess
  | eNotReady
  | eTimeout
  | eErrorOutOfHostMemory
  | eErrorOutOfDeviceMemory
  | eErrorDeviceLost
  deriving DecidableEq, Repr

/-- Modelled from the spec: the `CALL_VK_API` helper is declared in
`VulkanCommon.h`, which is not among the sources.  Section 7 of the
specification describes it: a failure of an API call is turned into a boolean
success flag (and a log line), so the flag is set exactly for `eSuccess`. -/
def CALL_VK_API (r : VkResult) : Bool :=
  decide (r = VkResult.eSuccess)

/-! ## Adapter, output and display-mode selection -/

/-- One entry of a display's mode list (`DisplayModeInfo`). -/
structure DisplayModeInfo where
  width : Nat
  height : Nat
  refreshRate : Nat
  flags : Nat
  deriving DecidableEq, Repr

/-- One enumerated display (`DisplayInfo`). -/
structure DisplayInfo where
  m_sDisplayName : String
  m_aDisplayModes : List DisplayModeInfo
  deriving DecidableEq, Repr

/-- The members of `VulkanDeviceState` that the selection functions and the
command-buffer cache read or write.  `m_aAdapters` holds the handles of the
enumerated physical devices; `mMainCmdBuffer` is the address of the cached
main command buffer, `none` while it is `nullptr`. -/
structure VulkanDeviceState where
  m_aAdapters : List Nat
  m_aDisplayInfos : List DisplayInfo
  m_uiCurrentAdapter : Nat
  m_uiCurrentOutput : Nat
  m_uiCurrentAdapterMode : Nat
  mMainCmdBuffer : Option Nat
  deriving DecidableEq, Repr

/-- Embedding of `VulkanDeviceState::SetCurrentAdapter`:
`if ( id > m_aAdapters.size() ) return false; m_uiCurrentAdapter = id; return true;`. -/
def VulkanDeviceState.SetCurrentAdapter (s : VulkanDeviceState) (id : Nat) :
    Bool × VulkanDeviceState :=
  if id > s.m_aAdapters.length then (false, s)
  else (true, { s with m_uiCurrentAdapter := id })

/-- Embedding of `VulkanDeviceState::GetAdapterInfo`, the sibling query of
`SetCurrentAdapter`; the device name is left out, only the returned flag and
the adapter read are kept. -/
def VulkanDeviceState.GetAdapterInfo (s : VulkanDeviceState) (id : Nat) :
    Bool × Option Nat :=
  if id ≥ s.m_aAdapters.length then (false, none)
  else (true, s.m_aAdapters.get? id)

/-- Embedding of `VulkanDeviceState::SetCurrentOutput`:
`if ( id >= m_aDisplayInfos.size() ) return false; m_uiCurrentOutput = id; return true;`. -/
def VulkanDeviceState.SetCurrentOutput (s : VulkanDeviceState) (id : Nat) :
    Bool × VulkanDeviceState :=
  if id ≥ s.m_aDisplayInfos.length then (false, s)
  else (true, { s with m_uiCurrentOutput := id })

/-- Embedding of `VulkanDeviceState::GetOutputInfo`, a sibling query with
the bound check `id >= m_aDisplayInfos.size()`; the value is the returned
flag and the display name written to `info`, if any. -/
def VulkanDeviceState.GetOutputInfo (s : VulkanDeviceState) (id : Nat) :
    Bool × Option String :=
  if id ≥ s.m_aDisplayInfos.length then (false, none)
  else (true, (s.m_aDisplayInfos.get? id).map (fun d => d.m_sDisplayName))

/-- Embedding of `VulkanDeviceState::GetOutputCount`:
`if ( adapterId > m_aAdapters.size() ) return false; count = m_aDisplayInfos.size(); return true;`.
The value is the returned flag and what is written to `count`, `none` when
nothing is written. -/
def VulkanDeviceState.GetOutputCount (s : VulkanDeviceState) (adapterId : Nat) :
    Bool × Option Nat :=
  if adapterId > s.m_aAdapters.length then (false, none)
  else (true, some (s.m_aDisplayInfos.length % 2 ^ 32))

/-- Embedding of `VulkanDeviceState::GetDisplayModeCount`:
`count = m_aDisplayInfos[outputId].m_aDisplayModes.size(); return true;`.
There is no guard: for `outputId` outside `m_aDisplayInfos` the element
access is undefined and the value is `none`. -/
def VulkanDeviceState.GetDisplayModeCount (s : VulkanDeviceState) (outputId : Nat) :
    Option (Bool × Option Nat) :=
  match s.m_aDisplayInfos.get? outputId with
  | none => none
  | some display => some (true, some (display.m_aDisplayModes.length % 2 ^ 32))

/-- Embedding of `VulkanDeviceState::GetDisplayModeInfo`: the guard compares
`id` with the number of modes of the current output; reading
`m_aDisplayInfos[m_uiCurrentOutput]` outside the list is undefined. -/
def VulkanDeviceState.GetDisplayModeInfo (s : VulkanDeviceState) (id : Nat) :
    Option (Bool × Option DisplayModeInfo) :=
  match s.m_aDisplayInfos.get? s.m_uiCurrentOutput with
  | none => none
  | some display =>
    if id ≥ display.m_aDisplayModes.length then some (false, none)
    else
      match display.m_aDisplayModes.get? id with
      | none => none
      | some mode => some (true, some mode)

/-- Embedding of `VulkanDeviceState::SetCurrentDisplayMode`:
`m_uiCurrentAdapterMode = id; return true;`. -/
def VulkanDeviceState.SetCurrentDisplayMode (s : VulkanDeviceState) (id : Nat) :
    Bool × VulkanDeviceState :=
  (true, { s with m_uiCurrentAdapterMode := id })

/-- A device state with one adapter and one display that has two modes, the
first of them current. -/
def exampleDisplayState : VulkanDeviceState :=
  { m_aAdapters := [7]
    m_aDisplayInfos := [⟨"DISPLAY1", [⟨1920, 1080, 60, 0⟩, ⟨1280, 720, 60, 0⟩]⟩]
    m_uiCurrentAdapter := 0
    m_uiCurrentOutput := 0
    m_uiCurrentAdapterMode := 0
    mMainCmdBuffer := none }

/-! ## Synchronization primitives and command buffers -/

/-- The two concrete classes behind an `ISyncPrimitive *`, each with the
native handle it wraps (a semaphore, respectively a fence). -/
inductive ISyncPrimitive
  | VulkanGPUSyncPrimitive (semaphore : Nat)
  | VulkanCPUSyncPrimitive (fence : Nat)
  deriving DecidableEq, Repr

/-- The expression `dynamic_cast<VulkanGPUSyncPrimitive *>( p )`, read through
to the semaphore: `none` when the cast yields `nullptr`, which is the case for
`nullptr` and for a primitive of the other class. -/
def dynamic_cast_GPU : Option ISyncPrimitive → Option Nat
  | some (ISyncPrimitive.VulkanGPUSyncPrimitive s) => some s
  | _ => none

/-- The expression `dynamic_cast<VulkanCPUSyncPrimitive *>( p )`, read through
to the fence: `none` when the cast yields `nullptr`. -/
def dynamic_cast_CPU : Option ISyncPrimitive → Option Nat
  | some (ISyncPrimitive.VulkanCPUSyncPrimitive f) => some f
  | _ => none

/-- What the device state uses of a `VulkanCommandBuffer` (the class itself is
not among the sources): the native handle returned by `GetBuffer()` and the
pointer returned by `ExecutionFinishedPrimitive()`. -/
structure VulkanCommandBuffer where
  mBuffer : Nat
  mExecutionFinished : Option ISyncPrimitive
  deriving DecidableEq, Repr

/-- The pipeline stage bits of the API that occur in the submission code. -/
inductive PipelineStageFlagBits
  | eTopOfPipe
  | eBottomOfPipe
  deriving DecidableEq, Repr

/-- What a pointer member of `vk::SubmitInfo` refers to at the moment the
queue reads it: nothing (`null`), an array that is still alive (`live`), or an
array whose block has already been left (`outOfScope`, with the values that
were last stored in it). -/
inductive Storage (α : Type)
  | null
  | live (elems : List α)
  | outOfScope (elems : List α)
  deriving DecidableEq, Repr

/-- What the queue reads through a pointer member and its count: the first
`n` elements of a live array that has at least `n` of them, nothing at all
when the count is zero, and `none` (an invalid read) otherwise. -/
def Storage.readN {α : Type} (p : Storage α) (n : Nat) : Option (List α) :=
  if n = 0 then some []
  else
    match p with
    | Storage.live xs => if n ≤ xs.length then some (xs.take n) else none
    | _ => none

/-- Embedding of `vk::SubmitInfo`; the default value is the one of
`vk::SubmitInfo{}`: all counts zero and all pointers null. -/
structure SubmitInfo where
  waitSemaphoreCount : Nat := 0
  pWaitSemaphores : Storage Nat := Storage.null
  pWaitDstStageMask : Storage PipelineStageFlagBits := Storage.null
  commandBufferCount : Nat := 0
  pCommandBuffers : Storage Nat := Storage.null
  signalSemaphoreCount : Nat := 0
  pSignalSemaphores : Storage Nat := Storage.null
  deriving DecidableEq, Repr

/-- The wait semaphores the queue reads from a submission. -/
def SubmitInfo.waitSemaphores (s : SubmitInfo) : Option (List Nat) :=
  s.pWaitSemaphores.readN s.waitSemaphoreCount

/-- The wait stage masks the queue reads from a submission, one for each wait
semaphore. -/
def SubmitInfo.waitDstStageMask (s : SubmitInfo) : Option (List PipelineStageFlagBits) :=
  s.pWaitDstStageMask.readN s.waitSemaphoreCount

/-- The command buffers the queue reads from a submission. -/
def SubmitInfo.commandBuffers (s : SubmitInfo) : Option (List Nat) :=
  s.pCommandBuffers.readN s.commandBufferCount

/-- The signal semaphores the queue reads from a submission. -/
def SubmitInfo.signalSemaphores (s : SubmitInfo) : Option (List Nat) :=
  s.pSignalSemaphores.readN s.signalSemaphoreCount

/-- One call `m_vkMainQueue.submit( submits, fence )`; `fence = none` is the
null fence. -/
structure QueueSubmit where
  submits : List SubmitInfo
  fence : Option Nat
  deriving DecidableEq, Repr

/-- The algorithm `std::ranges::transform( xs, std::back_inserter( out ), f )`
for an `f` that may dereference a null pointer: the transformed elements in
the order of `xs`, or `none` as soon as one application is undefined. -/
def transform {α β : Type} (f : α → Option β) : List α → Option (List β)
  | [] => some []
  | x :: xs =>
    match f x with
    | none => none
    | some y =>
      match transform f xs with
      | none => none
      | some ys => some (y :: ys)

/-- Embedding of `VulkanDeviceState::ExecuteCommandBuffer`: the value is the
queue submission the function makes.  `cmd_buffer`, `wait_semaphores` and
`signal_semaphores` are locals of the function body and alive at the submit;
`stage_flags` is declared inside the block of `if ( waitFor != nullptr )`,
which has been left when the submit reads `pWaitDstStageMask`. -/
def ExecuteCommandBuffer (buffer : Option VulkanCommandBuffer)
    (waitFor signal : Option ISyncPrimitive) : Option QueueSubmit :=
  match buffer with
  | none => none
  | some vk_cmd_buffer_ptr =>
    let info0 : SubmitInfo :=
      { commandBufferCount := 1, pCommandBuffers := Storage.live [vk_cmd_buffer_ptr.mBuffer] }
    let afterWait : Option SubmitInfo :=
      match waitFor with
      | none => some info0
      | some w =>
        match dynamic_cast_GPU (some w) with
        | none => none
        | some sem =>
          some { info0 with
                 waitSemaphoreCount := 1
                 pWaitSemaphores := Storage.live [sem]
                 pWaitDstStageMask := Storage.outOfScope [PipelineStageFlagBits.eTopOfPipe] }
    match afterWait with
    | none => none
    | some info1 =>
      let afterSignal : Option SubmitInfo :=
        match signal with
        | none => some info1
        | some sg =>
          match dynamic_cast_GPU (some sg) with
          | none => none
          | some sem =>
            some { info1 with
                   signalSemaphoreCount := 1
                   pSignalSemaphores := Storage.live [sem] }
      match afterSignal with
      | none => none
      | some queue_submit_info =>
        some { submits := [queue_submit_info]
               fence := dynamic_cast_CPU vk_cmd_buffer_ptr.mExecutionFinished }

/-- Embedding of `CommandBufferSubmitInfo`: the command buffer, the primitives
to wait for and the primitive to signal, all as the pointers the source
holds. -/
structure CommandBufferSubmitInfo where
  mCmdBuffer : Option VulkanCommandBuffer
  mWaitForDep : List (Option ISyncPrimitive)
  mToSignalDep : Option ISyncPrimitive
  deriving DecidableEq, Repr

/-- The number of values of `size_t`, the type of `ArrayProxy::Size()`, in a
64-bit build; `Size() - 1` is computed modulo this number. -/
def SIZE_MOD : Nat := 2 ^ 64

/-- The lambda of `DispatchToGPU` that turns one descriptor into one
`vk::SubmitInfo`.  The wait semaphores and stage flags are stored in the
inner vectors of `q_sm_waitable_vec` and `q_sm_stage_flags_vec`, which live
until the end of `DispatchToGPU`. -/
def DispatchToGPU.submitInfo (submitInfo : CommandBufferSubmitInfo) : Option SubmitInfo :=
  match submitInfo.mCmdBuffer with
  | none => none
  | some buffer_impl =>
    let signal_impl := dynamic_cast_GPU submitInfo.mToSignalDep
    let vk_submit : SubmitInfo :=
      { pCommandBuffers := Storage.live [buffer_impl.mBuffer], commandBufferCount := 1 }
    match transform dynamic_cast_GPU submitInfo.mWaitForDep with
    | none => none
    | some waitable =>
      let stage_flags :=
        submitInfo.mWaitForDep.map (fun _ => PipelineStageFlagBits.eTopOfPipe)
      let vk_submit1 : SubmitInfo :=
        if waitable.isEmpty then vk_submit
        else { vk_submit with
               pWaitSemaphores := Storage.live waitable
               waitSemaphoreCount := waitable.length % 2 ^ 32
               pWaitDstStageMask := Storage.live stage_flags }
      match signal_impl with
      | none => some vk_submit1
      | some sem =>
        some { vk_submit1 with
               pSignalSemaphores := Storage.live [sem]
               signalSemaphoreCount := 1 }

/-- Embedding of `VulkanDeviceState::DispatchToGPU`: the value is the queue
submission the function makes.  The fence is taken from
`buffers.Data()[buffers.Size() - 1]`, with the index computed in `size_t`. -/
def DispatchToGPU (buffers : List CommandBufferSubmitInfo) : Option QueueSubmit :=
  match transform DispatchToGPU.submitInfo buffers with
  | none => none
  | some queue_submit_info_vec =>
    match buffers.get? ((buffers.length + SIZE_MOD - 1) % SIZE_MOD) with
    | none => none
    | some last =>
      match last.mCmdBuffer with
      | none => none
      | some vk_cmd_buffer_ptr =>
        some { submits := queue_submit_info_vec
               fence := dynamic_cast_CPU vk_cmd_buffer_ptr.mExecutionFinished }

/-- The index `buffers.Size() - 1` at which `DispatchToGPU` looks up the
entry whose command buffer gives the batch fence, computed in `size_t`. -/
def DispatchToGPU.lastIndex (buffers : List CommandBufferSubmitInfo) : Nat :=
  (buffers.length + SIZE_MOD - 1) % SIZE_MOD

/-- A submission descriptor as the data model describes it: a command buffer
is present, every primitive to wait for is a GPU-kind primitive, their number
fits the 32-bit count of the submission, and the primitive to signal, when
one is given, is a GPU-kind primitive. -/
def CommandBufferSubmitInfo.WellFormed (d : CommandBufferSubmitInfo) : Prop :=
  d.mCmdBuffer.isSome = true ∧
  (∀ p ∈ d.mWaitForDep, (dynamic_cast_GPU p).isSome = true) ∧
  d.mWaitForDep.length < 2 ^ 32 ∧
  (d.mToSignalDep.isSome = true → (dynamic_cast_GPU d.mToSignalDep).isSome = true)

instance (d : CommandBufferSubmitInfo) : Decidable d.WellFormed := by
  unfold CommandBufferSubmitInfo.WellFormed
  infer_instance

/-- A batch of two descriptors: the second waits for the semaphore the first
signals. -/
def exampleBatch : List CommandBufferSubmitInfo :=
  [ { mCmdBuffer := some { mBuffer := 10,
                           mExecutionFinished := some (ISyncPrimitive.VulkanCPUSyncPrimitive 100) }
      mWaitForDep := []
      mToSignalDep := some (ISyncPrimitive.VulkanGPUSyncPrimitive 1) },
    { mCmdBuffer := some { mBuffer := 11,
                           mExecutionFinished := some (ISyncPrimitive.VulkanCPUSyncPrimitive 101) }
      mWaitForDep := [some (ISyncPrimitive.VulkanGPUSyncPrimitive 1)]
      mToSignalDep := none } ]

/-! ## Waiting on fences -/

/-- The calls `Wait` makes on the logical device. -/
inductive DeviceCall
  | waitForFences (fences : List Nat) (waitAll : Bool) (timeout : Nat)
  | resetFences (fences : List Nat)
  deriving DecidableEq, Repr

/-- The C++ expression `~0u`: the complement of the `unsigned int` zero. -/
def complement_0u : Nat := 2 ^ 32 - 1 - 0

/-- The timeout argument of `waitForFences`: `~0u` converted to the
`uint64_t` parameter. -/
def Wait.timeout : Nat := complement_0u % 2 ^ 64

/-- Embedding of `VulkanDeviceState::Wait`: the value is the list of device
calls made, in order.  `waitResult` is what `waitForFences` returns. -/
def Wait (waitResult : VkResult) (primitiveList : List (Option ISyncPrimitive)) :
    Option (List DeviceCall) :=
  match transform dynamic_cast_CPU primitiveList with
  | none => none
  | some fence_list =>
    if !CALL_VK_API waitResult then
      some [DeviceCall.waitForFences fence_list true Wait.timeout]
    else
      some [DeviceCall.waitForFences fence_list true Wait.timeout,
            DeviceCall.resetFences fence_list]

/-- The effect of a device call on the set of signalled fences, as the API
defines it: a reset makes every listed fence unsignalled, a wait changes
nothing. -/
def DeviceCall.effect (signalled : List Nat) : DeviceCall → List Nat
  | DeviceCall.waitForFences _ _ _ => signalled
  | DeviceCall.resetFences fences => signalled.filter (fun f => decide (f ∉ fences))

/-- The fences signalled after a sequence of device calls. -/
def DeviceCall.effects (signalled : List Nat) (calls : List DeviceCall) : List Nat :=
  calls.foldl DeviceCall.effect signalled

/-! ## Creating command buffers -/

/-- What comes back when a command buffer is created: `result` and `value`
are the members of the value returned by `allocateCommandBuffers`, and
`executionFinished` is the primitive that the constructor of
`VulkanCommandBuffer` (not among the sources) associates with the new
object. -/
structure CommandBufferAnswer where
  result : VkResult
  value : List Nat
  executionFinished : Option ISyncPrimitive
  deriving DecidableEq, Repr

/-- An allocation that succeeds: the result is `eSuccess` and, as
`commandBufferCount` is one, one handle is returned. -/
def CommandBufferAnswer.Succeeds (a : CommandBufferAnswer) : Prop :=
  a.result = VkResult.eSuccess ∧ a.value.length = 1

instance (a : CommandBufferAnswer) : Decidable a.Succeeds := by
  unfold CommandBufferAnswer.Succeeds
  infer_instance

/-- The part common to `GetMainCommandBuffer` and `CreateCommandBuffer`:
the allocation, the check of its result and the construction of the
`VulkanCommandBuffer` from `cmd_buffer.value[0]`.  The outer `none` is an
index outside `value`, `some none` is the `nullptr` returned after a failed
allocation. -/
def allocateCommandBuffer (a : CommandBufferAnswer) : Option (Option VulkanCommandBuffer) :=
  if !CALL_VK_API a.result then some none
  else
    match a.value.get? 0 with
    | none => none
    | some handle =>
      some (some { mBuffer := handle, mExecutionFinished := a.executionFinished })

/-- The device state together with the free store of command buffers: `heap`
lists the objects made by `new VulkanCommandBuffer`, the address of an object
being its position, and `allocateCalls` counts the calls of
`allocateCommandBuffers`. -/
structure Machine where
  dev : VulkanDeviceState
  heap : List VulkanCommandBuffer
  allocateCalls : Nat
  deriving DecidableEq, Repr

/-- The cached main command buffer, when there is one, is an object of the
free store. -/
def Machine.Valid (m : Machine) : Prop :=
  ∀ p, m.dev.mMainCmdBuffer = some p → p < m.heap.length

/-- Embedding of `VulkanDeviceState::GetMainCommandBuffer`: the returned
pointer and the state after the call. -/
def GetMainCommandBuffer (m : Machine) (a : CommandBufferAnswer) :
    Option (Option Nat × Machine) :=
  match m.dev.mMainCmdBuffer with
  | some p => some (some p, m)
  | none =>
    match allocateCommandBuffer a with
    | none => none
    | some none => some (none, { m with allocateCalls := m.allocateCalls + 1 })
    | some (some cb) =>
      some (some m.heap.length,
            { dev := { m.dev with mMainCmdBuffer := some m.heap.length }
              heap := m.heap ++ [cb]
              allocateCalls := m.allocateCalls + 1 })

/-- Embedding of `VulkanDeviceState::CreateCommandBuffer`: the returned
pointer and the state after the call. -/
def CreateCommandBuffer (m : Machine) (a : CommandBufferAnswer) :
    Option (Option Nat × Machine) :=
  match allocateCommandBuffer a with
  | none => none
  | some none => some (none, { m with allocateCalls := m.allocateCalls + 1 })
  | some (some cb) =>
    some (some m.heap.length,
          { m with heap := m.heap ++ [cb], allocateCalls := m.allocateCalls + 1 })

/-- A device state right after `Init`: one adapter, one display, no main
command buffer yet and an empty free store. -/
def exampleMachine : Machine :=
  { dev := { m_aAdapters := [7], m_aDisplayInfos := [⟨"A", []⟩], m_uiCurrentAdapter := 0,
             m_uiCurrentOutput := 0, m_uiCurrentAdapterMode := 0, mMainCmdBuffer := none }
    heap := []
    allocateCalls := 0 }

/-- An answer of a successful allocation with native handle `h` and fence `f`. -/
def exampleAnswer (h f : Nat) : CommandBufferAnswer :=
  { result := VkResult.eSuccess, value := [h],
    executionFinished := some (ISyncPrimitive.VulkanCPUSyncPrimitive f) }

/-! ## Device initialization and shutdown -/

/-- The bit `vk::QueueFlagBits::eGraphics` of the API. -/
def eGraphics : Nat := 1

/-- The bit `vk::QueueFlagBits::eCompute` of the API. -/
def eCompute : Nat := 2

/-- The bit `vk::QueueFlagBits::eTransfer` of the API. -/
def eTransfer : Nat := 4

/-- The test `queueFlags & bit` of the queue-family loop. -/
def hasFlag (queueFlags bit : Nat) : Bool :=
  decide (queueFlags &&& bit ≠ 0)

/-- The members of `VulkanDeviceState` that `Init` sets and `Shutdown`
releases: the two queue family indices, the native handles of the logical
device, its main queue and its command pool, and the pointer to the default
memory allocator. -/
structure DeviceHandles where
  m_iGraphicsQueueFamilyIdx : Nat
  m_iCopyQueueFamilyIdx : Nat
  m_vkDevice : Nat
  m_vkMainQueue : Nat
  m_vkCommandPool : Nat
  mDefaultAllocator : Option Nat
  deriving DecidableEq, Repr

/-- What the API answers during `Init`: the queue flags of the families of an
adapter (`getQueueFamilyProperties`), result and value of `createDevice`, the
queue returned by `getQueue`, result and value of `createCommandPool`, and
the address of the new `VulkanMemoryAllocator`. -/
structure InitAnswers where
  queue_family_properties : Nat → List Nat
  device_res : VkResult × Nat
  mainQueue : Nat
  command_pool_res : VkResult × Nat
  allocator : Nat

/-- The calls of `Init` that use the graphics queue family index, and the
creation of the allocator. -/
inductive InitCall
  | createDevice (adapter queueFamilyIndex : Nat)
  | getQueue (device queueFamilyIndex queueIndex : Nat)
  | createCommandPool (device queueFamilyIndex : Nat)
  | newAllocator (adapter device : Nat)
  deriving DecidableEq, Repr

/-- The queue-family loop of `Init`: `i` counts the families, and a family
with the graphics (transfer) bit overwrites the graphics (copy) index. -/
def selectQueueFamilies : List Nat → Nat → Nat × Nat → Nat × Nat
  | [], _, idx => idx
  | queueFlags :: rest, i, (graphics, copy) =>
    selectQueueFamilies rest ((i + 1) % 2 ^ 32)
      (if hasFlag queueFlags eGraphics then i else graphics,
       if hasFlag queueFlags eTransfer then i else copy)

/-- Embedding of `VulkanDeviceState::Init`: the returned flag, the members
after the call and the calls made.  Reading `m_aAdapters[m_uiCurrentAdapter]`
outside the list is undefined. -/
def Init (s : VulkanDeviceState) (h : DeviceHandles) (env : InitAnswers) :
    Option (Bool × DeviceHandles × List InitCall) :=
  match s.m_aAdapters.get? s.m_uiCurrentAdapter with
  | none => none
  | some adapter =>
    let idx := selectQueueFamilies (env.queue_family_properties adapter) 0
      (h.m_iGraphicsQueueFamilyIdx, h.m_iCopyQueueFamilyIdx)
    let h1 : DeviceHandles :=
      { h with m_iGraphicsQueueFamilyIdx := idx.1, m_iCopyQueueFamilyIdx := idx.2 }
    let call1 := InitCall.createDevice adapter h1.m_iGraphicsQueueFamilyIdx
    if !CALL_VK_API env.device_res.1 then some (false, h1, [call1])
    else
      let h2 : DeviceHandles :=
        { h1 with m_vkDevice := env.device_res.2, m_vkMainQueue := env.mainQueue }
      let call2 := InitCall.getQueue h2.m_vkDevice h2.m_iGraphicsQueueFamilyIdx 0
      let call3 := InitCall.createCommandPool h2.m_vkDevice h2.m_iGraphicsQueueFamilyIdx
      if !CALL_VK_API env.command_pool_res.1 then some (false, h2, [call1, call2, call3])
      else
        some (true,
              { h2 with m_vkCommandPool := env.command_pool_res.2
                        mDefaultAllocator := some env.allocator },
              [call1, call2, call3, InitCall.newAllocator adapter h2.m_vkDevice])

/-- A device state whose only adapter is the one with handle 7. -/
def exampleInitState : VulkanDeviceState :=
  { m_aAdapters := [7], m_aDisplayInfos := [], m_uiCurrentAdapter := 0,
    m_uiCurrentOutput := 0, m_uiCurrentAdapterMode := 0, mMainCmdBuffer := none }

/-- Answers of an adapter with a single queue family that supports compute
and transfer but not graphics; device and command pool are created. -/
def exampleNoGraphics : InitAnswers :=
  { queue_family_properties := fun _ => [eCompute ||| eTransfer]
    device_res := (VkResult.eSuccess, 50)
    mainQueue := 51
    command_pool_res := (VkResult.eSuccess, 52)
    allocator := 53 }

/-- The four releases of `Shutdown`, each with its operand: the two `delete`
expressions with the pointer they are applied to, and the two destroy calls
with the handles they are applied to. -/
inductive ShutdownCall
  | deleteAllocator (pointer : Option Nat)
  | deleteCommandBuffer (pointer : Option Nat)
  | destroyCommandPool (device pool : Nat)
  | destroyDevice (device : Nat)
  deriving DecidableEq, Repr

/-- Whether a release destroys an object: `delete` applied to `nullptr` does
nothing, every other release destroys its operand. -/
def ShutdownCall.destroys : ShutdownCall → Bool
  | ShutdownCall.deleteAllocator p => p.isSome
  | ShutdownCall.deleteCommandBuffer p => p.isSome
  | ShutdownCall.destroyCommandPool _ _ => true
  | ShutdownCall.destroyDevice _ => true

/-- Embedding of `VulkanDeviceState::Shutdown`: the returned flag, the state
after the call and the releases in their order. -/
def Shutdown (m : Machine) (h : DeviceHandles) :
    Bool × Machine × DeviceHandles × List ShutdownCall :=
  (true,
   { m with dev := { m.dev with mMainCmdBuffer := none } },
   h,
   [ ShutdownCall.deleteAllocator h.mDefaultAllocator,
     ShutdownCall.deleteCommandBuffer m.dev.mMainCmdBuffer,
     ShutdownCall.destroyCommandPool h.m_vkDevice h.m_vkCommandPool,
     ShutdownCall.destroyDevice h.m_vkDevice ])

/-- Members of an initialized device: device 50, queue 51, pool 52 and the
allocator at address 53. -/
def exampleHandles : DeviceHandles :=
  { m_iGraphicsQueueFamilyIdx := 0, m_iCopyQueueFamilyIdx := 0, m_vkDevice := 50,
    m_vkMainQueue := 51, m_vkCommandPool := 52, mDefaultAllocator := some 53 }

/-- A device with a cached main command buffer at address 0. -/
def exampleCachedMachine : Machine :=
  { dev := { exampleInitState with mMainCmdBuffer := some 0 }
    heap := [{ mBuffer := 40, mExecutionFinished := none }]
    allocateCalls := 1 }

/-! ## Creating an image with initial data -/

/-- The stages of the engine that the upload names (`PipelineStage`). -/
inductive PipelineStage
  | Host
  | Transfer
  | PixelShader
  deriving DecidableEq, Repr

/-- The image layouts that the upload names (`ImageLayout`). -/
inductive ImageLayout
  | Undefined
  | TransferDst
  | ShaderReadOnly
  deriving DecidableEq, Repr

/-- The memory access flags that the upload names (`MemoryAccessFlags`). -/
inductive MemoryAccessFlags
  | Unknown
  | TransferWrite
  | ShaderRead
  deriving DecidableEq, Repr

/-- The member `mSubresRange` of an image barrier. -/
structure ImageSubresourceRange where
  baseMipLevel : Nat
  levelCount : Nat
  baseArrayLayer : Nat
  layerCount : Nat
  deriving DecidableEq, Repr

/-- One image barrier (`ImageMemoryBarrierInfo`); `mImage` is the address of
the image. -/
structure ImageMemoryBarrierInfo where
  mImage : Nat
  mSrcLayout : ImageLayout
  mDstLayout : ImageLayout
  mSrcMemoryAccess : MemoryAccessFlags
  mDstMemoryAccess : MemoryAccessFlags
  mSubresRange : ImageSubresourceRange
  deriving DecidableEq, Repr

/-- The argument of `PipelineBarrier`. -/
structure PipelineBarrierInfo where
  mSrcStage : PipelineStage
  mDstStage : PipelineStage
  mImageMemoryBarriers : List ImageMemoryBarrierInfo
  deriving DecidableEq, Repr

/-- The value `ImageSubresourceRegion{ i, 0, 1 }`: mip level, first array
layer and number of layers. -/
structure ImageSubresourceRegion where
  mipLevel : Nat
  baseArrayLayer : Nat
  layerCount : Nat
  deriving DecidableEq, Repr

/-- The value `BufferRegion{ offset, 0, 0 }`: the offset into the buffer and
the two row members, which the source sets to zero. -/
structure BufferRegion where
  mOffset : Nat
  mRowLength : Nat
  mRowCount : Nat
  deriving DecidableEq, Repr

/-- The value `ImageRegion{ mip_region, 0, 0, 0, mip_w, mip_h, 1 }`.  The
two extents that the source computes by a shift are `none` where that shift
has no defined value. -/
structure ImageRegion where
  mSubresource : ImageSubresourceRegion
  mOffsetX : Nat
  mOffsetY : Nat
  mOffsetZ : Nat
  mExtentW : Option Nat
  mExtentH : Option Nat
  mExtentD : Nat
  deriving DecidableEq, Repr

/-- One copy region (`BufferToImageCopySubInfo`). -/
structure BufferToImageCopySubInfo where
  mFrom : BufferRegion
  mTo : ImageRegion
  deriving DecidableEq, Repr

/-- The argument of `CopyBufferToImage`; buffer and image are addresses. -/
structure BufferToImageCopyInfo where
  mBuffer : Nat
  mImage : Nat
  mImageLayout : ImageLayout
  mRegions : List BufferToImageCopySubInfo
  deriving DecidableEq, Repr

/-- The initial data of one mip level (`ImageBufferInitData`): `mData j` is
the byte at distance `j` from the pointer `mData`, and `mSize` the number of
bytes. -/
structure ImageBufferInitData where
  mData : Nat → Nat
  mSize : Nat

/-- The members of `ImageBufferCreateParams` that `CreateImageBuffer` reads. -/
structure ImageBufferCreateParams where
  mWidth : Nat
  mHeight : Nat
  mMipLevels : Nat
  mPreinitData : List ImageBufferInitData

/-- The size requested for the staging buffer: `std::accumulate` over all of
`mPreinitData`, from `0u`, with the sum cut to `uint32_t` at every step. -/
def staging_buffer_size (params : ImageBufferCreateParams) : Nat :=
  params.mPreinitData.foldl (fun t x => (t + x.mSize) % 2 ^ 32) 0

/-- The variables the mip loop of `CreateImageBuffer` changes: the running
`offset`, the vector `copy_regions`, and the bytes of the mapped staging
memory. -/
structure MipLoopState where
  offset : Nat
  copy_regions : List BufferToImageCopySubInfo
  buffer_memory : Nat → Nat

/-- The call `std::memcpy( buffer_memory + offset, data, size )` on the bytes
of the staging memory. -/
def memcpy (buffer_memory : Nat → Nat) (offset : Nat) (data : Nat → Nat) (size : Nat) :
    Nat → Nat :=
  fun a => if offset ≤ a ∧ a < offset + size then data (a - offset) else buffer_memory a

/-- The expression `(std::max)( dim >> i, 1u )` for a `uint32_t` dimension
`dim` and the loop counter `i`: for `i` below 32 the shifted dimension, at
least 1; for `i` of 32 or more the shift `dim >> i` has no defined value in
C++ and neither has the extent. -/
def mipExtent (dim i : Nat) : Option Nat :=
  if i < 32 then some (max (dim >>> i) 1) else none

/-- One iteration of the mip loop, for mip `i`, with a staging buffer of
`size` bytes.  Reading `mPreinitData[i]` outside the list and copying past
the end of the staging buffer are undefined.  The extents `mip_w` and `mip_h`
are only stored in the region; from mip 32 on they have no defined value. -/
def mipStep (params : ImageBufferCreateParams) (size : Nat) (i : Nat) (st : MipLoopState) :
    Option MipLoopState :=
  match params.mPreinitData[i]? with
  | none => none
  | some pre_init_data =>
    let mip_w := mipExtent params.mWidth i
    let mip_h := mipExtent params.mHeight i
    if pre_init_data.mSize ≤ 0 then some st
    else if st.offset + pre_init_data.mSize > size then none
    else
      let mip_region : ImageSubresourceRegion := ⟨i, 0, 1⟩
      some { offset := (st.offset + pre_init_data.mSize) % 2 ^ 32
             copy_regions := st.copy_regions ++
               [⟨⟨st.offset, 0, 0⟩, ⟨mip_region, 0, 0, 0, mip_w, mip_h, 1⟩⟩]
             buffer_memory :=
               memcpy st.buffer_memory st.offset pre_init_data.mData pre_init_data.mSize }

/-- The mip loop `for ( uint32_t offset = 0, i = 0; i < params.mMipLevels; i++ )`:
`n` iterations starting at mip `i`. -/
def mipLoop (params : ImageBufferCreateParams) (size : Nat) :
    Nat → Nat → MipLoopState → Option MipLoopState
  | 0, _, st => some st
  | n + 1, i, st =>
    match mipStep params size i st with
    | none => none
    | some st1 => mipLoop params size n (i + 1) st1

/-- The staging part of `CreateImageBuffer`: the mip loop run over the memory
that `Lock()` returned, in a staging buffer of the requested size. -/
def stageMips (params : ImageBufferCreateParams) (buffer_memory : Nat → Nat) :
    Option MipLoopState :=
  mipLoop params (staging_buffer_size params) params.mMipLevels 0
    { offset := 0, copy_regions := [], buffer_memory := buffer_memory }

/-- The sum of the sizes of the mips before mip `i`. -/
def mipOffset (params : ImageBufferCreateParams) (i : Nat) : Nat :=
  ((params.mPreinitData.take i).map (fun d => d.mSize)).sum

/-- The size of mip `i`, zero when there is no such entry. -/
def mipSize (params : ImageBufferCreateParams) (i : Nat) : Nat :=
  match params.mPreinitData[i]? with
  | none => 0
  | some d => d.mSize

/-- The copy region expected for mip `i`: it starts in the staging buffer
where the mips before it end, it targets mip level `i`, and its extents are
those of `mipExtent`. -/
def mipRegion (params : ImageBufferCreateParams) (i : Nat) : BufferToImageCopySubInfo :=
  ⟨⟨mipOffset params i, 0, 0⟩,
   ⟨⟨i, 0, 1⟩, 0, 0, 0, mipExtent params.mWidth i, mipExtent params.mHeight i, 1⟩⟩

/-- The copy regions expected for the first `n` mips: one for every mip of
non-zero size, in increasing mip order. -/
def mipRegions (params : ImageBufferCreateParams) (n : Nat) : List BufferToImageCopySubInfo :=
  ((List.range n).filter (fun i => decide (mipSize params i ≠ 0))).map (mipRegion params)

/-- The buffer usages of the engine (`BufferUsage`); the device state itself
names only `StagingBuffer`, the other usages are kept by their number. -/
inductive BufferUsage
  | StagingBuffer
  | Other (usage : Nat)
  deriving DecidableEq, Repr

/-- The members of `BufferCreateInfo` that the device state sets. -/
structure BufferCreateInfo where
  mSize : Nat
  mUsage : BufferUsage
  deriving DecidableEq, Repr

/-- Embedding of `VulkanDeviceState::CreateBuffer`:
`return new VulkanBuffer( { params, m_vkDevice, mDefaultAllocator } );`.
`address` is the address of the object that `new` creates; a `new`
expression never yields `nullptr`, whatever the members of `params` are. -/
def CreateBuffer (_params : BufferCreateInfo) (address : Nat) : Option Nat :=
  some address

/-- The request `CreateImageBuffer` makes for its staging buffer. -/
def stagingBufferRequest (params : ImageBufferCreateParams) : BufferCreateInfo :=
  { mSize := staging_buffer_size params, mUsage := BufferUsage.StagingBuffer }

/-- The calls `CreateImageBuffer` makes once the staging memory is filled:
the recording calls on the transfer command buffer at address `cmd`, the
queue submission and the device calls of `Wait`. -/
inductive UploadCall
  | BeginRecord (cmd : Nat)
  | PipelineBarrier (cmd : Nat) (info : PipelineBarrierInfo)
  | CopyBufferToImage (cmd : Nat) (info : BufferToImageCopyInfo)
  | EndRecord (cmd : Nat)
  | submit (q : QueueSubmit)
  | device (c : DeviceCall)
  deriving DecidableEq, Repr

/-- What `CreateImageBuffer` is given from outside: the address of the new
`VulkanImage`, the address of the `VulkanBuffer` that `CreateBuffer` creates,
the bytes of the memory that `Lock()` maps, the answer to the creation of the
transfer command buffer and the result of the fence wait. -/
structure CreateImageAnswers where
  image : Nat
  staging_buffer : Nat
  buffer_memory : Nat → Nat
  cmd : CommandBufferAnswer
  waitResult : VkResult

/-- What `CreateImageBuffer` has done when it returns: the returned image,
the size requested for the staging buffer with the final state of the mip
loop (`none` when there is no initial data), the calls made afterwards in
their order, and the state of the device. -/
structure CreateImageOutcome where
  result : Nat
  staging : Option (Nat × MipLoopState)
  calls : List UploadCall
  machine : Machine

/-- Embedding of `VulkanDeviceState::CreateImageBuffer`.  The scoped pointers
`staging_buffer` and `copy_cmd_buff` release their objects when the function
returns; the free store of the model keeps them. -/
def CreateImageBuffer (m : Machine) (params : ImageBufferCreateParams)
    (env : CreateImageAnswers) : Option CreateImageOutcome :=
  let result := env.image
  if params.mPreinitData.length ≤ 0 then
    some { result := result, staging := none, calls := [], machine := m }
  else
    match CreateBuffer (stagingBufferRequest params) env.staging_buffer with
    | none => none
    | some staging_buffer =>
    match stageMips params env.buffer_memory with
    | none => none
    | some st =>
      match CreateCommandBuffer m env.cmd with
      | none => none
      | some (none, _) => none
      | some (some copy_cmd_buff, m1) =>
        match m1.heap.get? copy_cmd_buff with
        | none => none
        | some cb =>
          let range : ImageSubresourceRange :=
            { baseMipLevel := 0, levelCount := params.mMipLevels,
              baseArrayLayer := 0, layerCount := 1 }
          match ExecuteCommandBuffer (some cb) none none with
          | none => none
          | some q =>
            match Wait env.waitResult [cb.mExecutionFinished] with
            | none => none
            | some deviceCalls =>
              some
                { result := result
                  staging := some (staging_buffer_size params, st)
                  calls :=
                    [ UploadCall.BeginRecord copy_cmd_buff,
                      UploadCall.PipelineBarrier copy_cmd_buff
                        { mSrcStage := PipelineStage.Host
                          mDstStage := PipelineStage.Transfer
                          mImageMemoryBarriers :=
                            [ { mImage := result
                                mSrcLayout := ImageLayout.Undefined
                                mDstLayout := ImageLayout.TransferDst
                                mSrcMemoryAccess := MemoryAccessFlags.Unknown
                                mDstMemoryAccess := MemoryAccessFlags.TransferWrite
                                mSubresRange := range } ] },
                      UploadCall.CopyBufferToImage copy_cmd_buff
                        { mBuffer := staging_buffer
                          mImage := result
                          mImageLayout := ImageLayout.TransferDst
                          mRegions := st.copy_regions },
                      UploadCall.PipelineBarrier copy_cmd_buff
                        { mSrcStage := PipelineStage.Transfer
                          mDstStage := PipelineStage.PixelShader
                          mImageMemoryBarriers :=
                            [ { mImage := result
                                mSrcLayout := ImageLayout.TransferDst
                                mDstLayout := ImageLayout.ShaderReadOnly
                                mSrcMemoryAccess := MemoryAccessFlags.TransferWrite
                                mDstMemoryAccess := MemoryAccessFlags.ShaderRead
                                mSubresRange := range } ] },
                      UploadCall.EndRecord copy_cmd_buff,
                      UploadCall.submit q ]
                    ++ deviceCalls.map UploadCall.device
                  machine := m1 }

/-- A request for a 4 x 4 image with three mips, the second of size zero;
the bytes of mip `k` at position `j` are `10 * k + j`. -/
def exampleParams : ImageBufferCreateParams :=
  { mWidth := 4, mHeight := 4, mMipLevels := 3,
    mPreinitData := [⟨fun j => j, 4⟩, ⟨fun j => 10 + j, 0⟩, ⟨fun j => 20 + j, 2⟩] }

/-- Answers for `exampleParams`: the image at address 1, the staging buffer
at address 2, zeroed staging memory, a successful command-buffer allocation
and a successful wait. -/
def exampleAnswers : CreateImageAnswers :=
  { image := 1, staging_buffer := 2, buffer_memory := fun _ => 0,
    cmd := exampleAnswer 40 5, waitResult := VkResult.eSuccess }

/-- The sum of all payload sizes of a request. -/
def totalPayload (params : ImageBufferCreateParams) : Nat :=
  (params.mPreinitData.map (fun d => d.mSize)).sum

/-- The state of the mip loop is as expected before mip `i`, for staging
memory that held `buffer_memory` at the start: the offset is the sum of the
sizes of the mips before `i`, the regions are those of the mips before `i`,
the bytes of each of these mips are in the memory at its offset, and the
memory from the offset on is as it was. -/
def MipLoopState.StagedUpTo (params : ImageBufferCreateParams) (buffer_memory : Nat → Nat)
    (i : Nat) (st : MipLoopState) : Prop :=
  st.offset = mipOffset params i ∧
  st.copy_regions = mipRegions params i ∧
  (∀ k d, k < i → params.mPreinitData[k]? = some d →
    ∀ j, j < d.mSize → st.buffer_memory (mipOffset params k + j) = d.mData j) ∧
  (∀ a, mipOffset params i ≤ a → st.buffer_memory a = buffer_memory a)

/-- A request whose two mips both have size zero. -/
def exampleZeroParams : ImageBufferCreateParams :=
  { mWidth := 2, mHeight := 2, mMipLevels := 2,
    mPreinitData := [⟨fun _ => 0, 0⟩, ⟨fun _ => 0, 0⟩] }

/-- The byte ranges that the `memcpy` calls of the mip loop have written, as
pairs of offset and size, in the order of the calls: every iteration that
emits a copy region copies the bytes of that region's mip to that region's
offset in the staging memory. -/
def stagingWrites (params : ImageBufferCreateParams) (st : MipLoopState) : List (Nat × Nat) :=
  st.copy_regions.map (fun r => (r.mFrom.mOffset, mipSize params r.mTo.mSubresource.mipLevel))

/-- A request with two mips whose sizes add up to `2 ^ 32 + 1`. -/
def exampleWrapParams : ImageBufferCreateParams :=
  { mWidth := 4, mHeight := 4, mMipLevels := 2,
    mPreinitData := [⟨fun _ => 0, 2 ^ 32 - 1⟩, ⟨fun _ => 0, 2⟩] }

/-- A request with one pre-init entry for an image of two mip levels. -/
def exampleShortParams : ImageBufferCreateParams :=
  { mWidth := 4, mHeight := 4, mMipLevels := 2,
    mPreinitData := [⟨fun j => j, 4⟩] }

/-- A request with three pre-init entries whose sizes add up to `2 ^ 32 + 1`,
of which the image uses one mip level. -/
def exampleWrapPrefixParams : ImageBufferCreateParams :=
  { mWidth := 4, mHeight := 4, mMipLevels := 1,
    mPreinitData := [⟨fun _ => 0, 1⟩, ⟨fun _ => 0, 2 ^ 32 - 1⟩, ⟨fun _ => 0, 1⟩] }

/-! ## Validation of instance layers and extensions -/

/-- Insertion into a `std::set`: the elements are kept in increasing order
and an element that is already present is not inserted again. -/
def set_insert {α : Type} [LinearOrder α] (x : α) : List α → List α
  | [] => [x]
  | y :: ys =>
    if x < y then x :: y :: ys
    else if y < x then y :: set_insert x ys
    else y :: ys

/-- The loop `for ( auto l : names ) set.insert( l );` on an empty
`std::set`, and likewise the insertion of an output range through
`std::inserter` into an empty set. -/
def to_set {α : Type} [LinearOrder α] (names : List α) : List α :=
  names.foldl (fun set l => set_insert l set) []

/-- The algorithm `std::ranges::set_difference` on two sorted ranges: the
elements of the first range that are not in the second, in order. -/
def set_difference {α : Type} [LinearOrder α] : List α → List α → List α
  | [], _ => []
  | a :: as, [] => a :: as
  | a :: as, b :: bs =>
    if a < b then a :: set_difference as (b :: bs)
    else if b < a then set_difference (a :: as) bs
    else set_difference as bs
termination_by l1 l2 => l1.length + l2.length

/-- The log levels of the logger that the device state names. -/
inductive LogLevel
  | Info
  deriving DecidableEq, Repr

/-- One argument after the format string of a formatted log call. -/
inductive LogArg
  | name (s : String)
  | level (l : LogLevel)
  deriving DecidableEq, Repr

/-- The calls of the logger (`DebugLogger`, not among the sources) that the
constructor makes, with their arguments as written in the source. -/
inductive LogCall
  | Log (msg : String)
  | Error (msg : String)
  | ErrorFmt (fmt : String) (args : List LogArg)
  deriving DecidableEq, Repr

/-- The names handed to the formatted error calls of a log, in order. -/
def reportedNames : List LogCall → List String
  | [] => []
  | LogCall.ErrorFmt _ args :: rest =>
    args.filterMap (fun a => match a with
      | LogArg.name s => some s
      | LogArg.level _ => none) ++ reportedNames rest
  | _ :: rest => reportedNames rest

/-- What the API answers during construction: the names of the supported
instance layers and extensions, the result of `createInstance`, and result
and value of `enumeratePhysicalDevices`. -/
structure InstanceAnswers where
  layer_properties : List String
  extension_properties : List String
  createInstance : VkResult
  adapter_res : VkResult × List Nat
  deriving DecidableEq, Repr

/-- What the constructor has done up to the enumeration of the adapters: the
log calls, whether `vk::createInstance` has been called, and the adapter list
`m_aAdapters`. -/
structure ConstructorOutcome where
  log : List LogCall
  createInstanceCalled : Bool
  m_aAdapters : List Nat
  deriving DecidableEq, Repr

/-- The extension names the constructor puts into `m_aExtensions`; the last
one only in a debug build. -/
def requiredExtensions (gDebugEnabled : Bool) : List String :=
  ["VK_KHR_surface", "VK_KHR_win32_surface", "VK_KHR_get_physical_device_properties2"]
    ++ (if gDebugEnabled then ["VK_EXT_debug_utils"] else [])

/-- The layer names the constructor puts into `m_aLayers`: none in a release
build. -/
def requiredLayers (gDebugEnabled : Bool) : List String :=
  if gDebugEnabled then ["VK_LAYER_KHRONOS_validation", "VK_LAYER_LUNARG_monitor"] else []

/-- The constructor `VulkanDeviceState::VulkanDeviceState()` from the
validation of the layers to the enumeration of the adapters, for given
contents of `m_aLayers` and `m_aExtensions`.  The unsupported layers are
collected in a `std::set`, the unsupported extensions in a `std::vector`.
The rest of the constructor (debug messenger, enumeration of the displays)
does not change the adapter list. -/
def validateInstance (m_aLayers m_aExtensions : List String) (env : InstanceAnswers) :
    ConstructorOutcome :=
  let start := [LogCall.Log "VulkanDeviceState initialization"]
  let required_layers := to_set m_aLayers
  let supported_layers := to_set env.layer_properties
  let unsupported_layers := to_set (set_difference required_layers supported_layers)
  if !unsupported_layers.isEmpty then
    { log := start ++
        [LogCall.Error ("VulkanDeviceState initialization failed, required " ++
          "instance layers are unsupported:")] ++
        unsupported_layers.map (fun l =>
          LogCall.ErrorFmt "\tinstance layer %s is unsupported!" [LogArg.name l])
      createInstanceCalled := false
      m_aAdapters := [] }
  else
    let required_extensions := to_set m_aExtensions
    let supported_extensions := to_set env.extension_properties
    let unsupported_extensions := set_difference required_extensions supported_extensions
    if !unsupported_extensions.isEmpty then
      { log := start ++
          [LogCall.Error ("VulkanDeviceState initialization failed, required " ++
            "instance extensions are unsupported:")] ++
          unsupported_extensions.map (fun ext =>
            LogCall.ErrorFmt "\textension %s is unsupported!"
              [LogArg.level LogLevel.Info, LogArg.name ext])
        createInstanceCalled := false
        m_aAdapters := [] }
    else if !CALL_VK_API env.createInstance then
      { log := start, createInstanceCalled := true, m_aAdapters := [] }
    else if !CALL_VK_API env.adapter_res.1 then
      { log := start, createInstanceCalled := true, m_aAdapters := [] }
    else
      { log := start, createInstanceCalled := true, m_aAdapters := env.adapter_res.2 }

/-- Embedding of the constructor `VulkanDeviceState::VulkanDeviceState()`
for a build with or without `gDebugEnabled`. -/
def VulkanDeviceState.construct (gDebugEnabled : Bool) (env : InstanceAnswers) :
    ConstructorOutcome :=
  validateInstance (requiredLayers gDebugEnabled) (requiredExtensions gDebugEnabled) env

/-- Answers of an API that supports exactly the extensions of a release
build and no layer, and has one adapter. -/
def exampleInstance : InstanceAnswers :=
  { layer_properties := []
    extension_properties := requiredExtensions false
    createInstance := VkResult.eSuccess
    adapter_res := (VkResult.eSuccess, [7]) }

/-- The argument a formatted log call passes directly after its format
string.  The call for an unsupported layer (lines 109-110) passes there the
name for the one `%s` of its format. -/
def LogCall.firstArgument : LogCall → Option LogArg
  | LogCall.ErrorFmt _ args => args.head?
  | _ => none

/-- Answers of an API that reports no layer and, of the extensions of a
release build, all but `VK_KHR_win32_surface`; it has one adapter. -/
def exampleNoSurface : InstanceAnswers :=
  { layer_properties := []
    extension_properties := ["VK_KHR_surface", "VK_KHR_get_physical_device_properties2"]
    createInstance := VkResult.eSuccess
    adapter_res := (VkResult.eSuccess, [7]) }

/-! ## Frame renderer -/

/-- The stages of a frame, in the order of section 4.6 of the
specification. -/
inductive FramePass
  | BlasBuild
  | TlasBuild
  | PrimaryRays
  | AO
  | Shadows
  | Reflections
  | TemporalFilter
  | DeferredComposition
  | GUIOverlay
  deriving DecidableEq, Repr

/-- Whether a pass is one of the two acceleration-structure build passes. -/
def FramePass.isBuild : FramePass → Bool
  | FramePass.BlasBuild => true
  | FramePass.TlasBuild => true
  | _ => false

/-- What the frame renderer reads of the scene: the revision of its geometry
and instance data. -/
structure FrameState where
  revision : Nat
  deriving DecidableEq, Repr

/-- The members of `RayTracingRenderer` that decide about the build passes:
the counter `mBlasBuilt` and the top-level structure `mTLAS`, `none` while
there is none. -/
structure RayTracingRenderer where
  mBlasBuilt : Nat
  mTLAS : Option Nat
  deriving DecidableEq, Repr

/-- The renderer after construction: `uint64_t mBlasBuilt = 0` and no
top-level structure, as the header declares the members. -/
def RayTracingRenderer.initial : RayTracingRenderer :=
  { mBlasBuilt := 0, mTLAS := none }

/-- The passes of a frame after the build passes: primary rays, the three
independent ray passes, temporal filter, composition and overlay. -/
def rayDispatchPasses : List FramePass :=
  [ FramePass.PrimaryRays, FramePass.AO, FramePass.Shadows, FramePass.Reflections,
    FramePass.TemporalFilter, FramePass.DeferredComposition, FramePass.GUIOverlay ]

/-- Modelled from the spec: the body of `RayTracingRenderer::Render` is not
among the sources, only its declaration and the members in
`RayTracingRenderer.h`.  Section 4.6 of the specification: the build passes
run only when the scene's geometry/instance data has changed since the last
built version, which is tracked by a monotonically increasing "built"
counter compared against the scene's revision; an unchanged frame skips
straight to the ray-dispatch passes and reuses the existing top-level
structure.  Here the scene has changed since the last built version when its
revision is ahead of the counter; the build then produces the top-level
structure `newTLAS` and the counter takes the scene's revision.  The value
is the renderer after the frame and the passes of the frame in order. -/
def Render (r : RayTracingRenderer) (scene : FrameState) (newTLAS : Nat) :
    RayTracingRenderer × List FramePass :=
  if r.mBlasBuilt < scene.revision then
    ({ mBlasBuilt := scene.revision, mTLAS := some newTLAS },
     [FramePass.BlasBuild, FramePass.TlasBuild] ++ rayDispatchPasses)
  else
    (r, rayDispatchPasses)

/-- A sequence of frames: the renderer after the last frame and the passes
of every frame. -/
def renderFrames (r : RayTracingRenderer) :
    List (FrameState × Nat) → RayTracingRenderer × List (List FramePass)
  | [] => (r, [])
  | (scene, newTLAS) :: rest =>
    let frame := Render r scene newTLAS
    let later := renderFrames frame.1 rest
    (later.1, frame.2 :: later.2)

/-! ## Theorems -/

/-! ### Facts about `transform` -/

theorem transform_length {α β : Type} (f : α → Option β) :
    ∀ (xs : List α) (ys : List β), transform f xs = some ys → ys.length = xs.length := by
  intro xs
  induction xs with
  | nil =>
    intro ys h
    simp [transform] at h
    simp [← h]
  | cons x xs ih =>
    intro ys h
    unfold transform at h
    cases hx : f x with
    | none => simp [hx] at h
    | some y =>
      cases hr : transform f xs with
      | none => simp [hx, hr] at h
      | some zs =>
        simp [hx, hr] at h
        subst h
        simp [ih zs hr]

theorem transform_get {α β : Type} (f : α → Option β) :
    ∀ (xs : List α) (ys : List β), transform f xs = some ys →
      ∀ (k : Nat) (x : α), xs.get? k = some x →
        ∃ y, f x = some y ∧ ys.get? k = some y := by
  intro xs
  induction xs with
  | nil =>
    intro ys _ k x hk
    simp at hk
  | cons a xs ih =>
    intro ys h k x hk
    unfold transform at h
    cases ha : f a with
    | none => simp [ha] at h
    | some y =>
      cases hr : transform f xs with
      | none => simp [ha, hr] at h
      | some zs =>
        simp [ha, hr] at h
        subst h
        cases k with
        | zero =>
          simp at hk
          subst hk
          exact ⟨y, ha, by simp⟩
        | succ k =>
          simp at hk
          obtain ⟨y2, h1, h2⟩ := ih zs hr k x (by simpa using hk)
          exact ⟨y2, h1, by simpa using h2⟩

theorem transform_total {α β : Type} (f : α → Option β) :
    ∀ (xs : List α), (∀ x ∈ xs, (f x).isSome = true) → ∃ ys, transform f xs = some ys := by
  intro xs
  induction xs with
  | nil =>
    intro _
    exact ⟨[], rfl⟩
  | cons a xs ih =>
    intro h
    obtain ⟨y, hy⟩ := Option.isSome_iff_exists.mp (h a (by simp))
    obtain ⟨ys, hys⟩ := ih (fun x hx => h x (by simp [hx]))
    exact ⟨y :: ys, by simp [transform, hy, hys]⟩

theorem transform_dynamic_cast_GPU :
    ∀ (ps : List (Option ISyncPrimitive)) (sems : List Nat),
      transform dynamic_cast_GPU ps = some sems →
        ps = sems.map (fun s => some (ISyncPrimitive.VulkanGPUSyncPrimitive s)) := by
  intro ps
  induction ps with
  | nil =>
    intro sems h
    simp [transform] at h
    simp [← h]
  | cons a ps ih =>
    intro sems h
    unfold transform at h
    cases ha : dynamic_cast_GPU a with
    | none => simp [ha] at h
    | some y =>
      cases hr : transform dynamic_cast_GPU ps with
      | none => simp [ha, hr] at h
      | some zs =>
        simp [ha, hr] at h
        subst h
        have hps := ih zs hr
        have haeq : a = some (ISyncPrimitive.VulkanGPUSyncPrimitive y) := by
          cases a with
          | none => simp [dynamic_cast_GPU] at ha
          | some q =>
            cases q with
            | VulkanGPUSyncPrimitive s =>
              simp [dynamic_cast_GPU] at ha
              simp [ha]
            | VulkanCPUSyncPrimitive f => simp [dynamic_cast_GPU] at ha
        simp [haeq, ← hps]

theorem transform_dynamic_cast_CPU :
    ∀ (ps : List (Option ISyncPrimitive)) (fences : List Nat),
      transform dynamic_cast_CPU ps = some fences →
        ps = fences.map (fun f => some (ISyncPrimitive.VulkanCPUSyncPrimitive f)) := by
  intro ps
  induction ps with
  | nil =>
    intro fences h
    simp [transform] at h
    simp [← h]
  | cons a ps ih =>
    intro fences h
    unfold transform at h
    cases ha : dynamic_cast_CPU a with
    | none => simp [ha] at h
    | some y =>
      cases hr : transform dynamic_cast_CPU ps with
      | none => simp [ha, hr] at h
      | some zs =>
        simp [ha, hr] at h
        subst h
        have hps := ih zs hr
        have haeq : a = some (ISyncPrimitive.VulkanCPUSyncPrimitive y) := by
          cases a with
          | none => simp [dynamic_cast_CPU] at ha
          | some q =>
            cases q with
            | VulkanGPUSyncPrimitive s => simp [dynamic_cast_CPU] at ha
            | VulkanCPUSyncPrimitive f =>
              simp [dynamic_cast_CPU] at ha
              simp [ha]
        simp [haeq, ← hps]

/-! ### Queue submission -/

theorem readN_live_all {α : Type} (xs : List α) :
    (Storage.live xs).readN xs.length = some xs := by
  unfold Storage.readN
  by_cases h : xs.length = 0
  · simp [h, List.length_eq_zero.mp h]
  · simp [h]

theorem submitInfo_wellFormed (d : CommandBufferSubmitInfo) (h : d.WellFormed) :
    ∃ sub cb sems,
      DispatchToGPU.submitInfo d = some sub ∧
      d.mCmdBuffer = some cb ∧
      d.mWaitForDep = sems.map (fun s => some (ISyncPrimitive.VulkanGPUSyncPrimitive s)) ∧
      sub.commandBuffers = some [cb.mBuffer] ∧
      sub.waitSemaphores = some sems ∧
      sub.waitDstStageMask = some (List.replicate sems.length PipelineStageFlagBits.eTopOfPipe) ∧
      (d.mToSignalDep = none → sub.signalSemaphores = some []) ∧
      (∀ s, d.mToSignalDep = some (ISyncPrimitive.VulkanGPUSyncPrimitive s) →
        sub.signalSemaphores = some [s]) := by
  obtain ⟨hcb, hw, hlen, hsig⟩ := h
  obtain ⟨cb, hcb2⟩ := Option.isSome_iff_exists.mp hcb
  obtain ⟨sems, hsems⟩ := transform_total dynamic_cast_GPU d.mWaitForDep hw
  have hmap := transform_dynamic_cast_GPU _ _ hsems
  have hl : sems.length = d.mWaitForDep.length := transform_length _ _ _ hsems
  have hmod : sems.length % 2 ^ 32 = sems.length := Nat.mod_eq_of_lt (by omega)
  have hstage : d.mWaitForDep.map (fun _ => PipelineStageFlagBits.eTopOfPipe)
      = List.replicate sems.length PipelineStageFlagBits.eTopOfPipe := by
    rw [List.map_const', hl]
  have hrep : (Storage.live (List.replicate sems.length PipelineStageFlagBits.eTopOfPipe)).readN
      sems.length = some (List.replicate sems.length PipelineStageFlagBits.eTopOfPipe) := by
    have := readN_live_all (List.replicate sems.length PipelineStageFlagBits.eTopOfPipe)
    simpa using this
  cases hs : d.mToSignalDep with
  | none =>
    refine ⟨(if sems.isEmpty then
        ({ pCommandBuffers := Storage.live [cb.mBuffer], commandBufferCount := 1 } : SubmitInfo)
      else
        { pCommandBuffers := Storage.live [cb.mBuffer], commandBufferCount := 1,
          pWaitSemaphores := Storage.live sems, waitSemaphoreCount := sems.length % 2 ^ 32,
          pWaitDstStageMask :=
            Storage.live (d.mWaitForDep.map (fun _ => PipelineStageFlagBits.eTopOfPipe)) }),
      cb, sems, ?_, hcb2, hmap, ?_, ?_, ?_, ?_, ?_⟩
    · simp only [DispatchToGPU.submitInfo, hcb2, hsems, hs, dynamic_cast_GPU]
    · by_cases he : sems.isEmpty = true <;>
        simp [he, SubmitInfo.commandBuffers, Storage.readN]
    · by_cases he : sems.isEmpty = true
      · have : sems = [] := List.isEmpty_iff.mp he
        simp [this, SubmitInfo.waitSemaphores, Storage.readN]
      · rw [if_neg he]
        simp only [SubmitInfo.waitSemaphores, hmod]
        exact readN_live_all sems
    · by_cases he : sems.isEmpty = true
      · have : sems = [] := List.isEmpty_iff.mp he
        simp [this, SubmitInfo.waitDstStageMask, Storage.readN]
      · simp only [he, SubmitInfo.waitDstStageMask, hmod, hstage]
        simpa using hrep
    · intro _
      by_cases he : sems.isEmpty = true <;>
        simp [he, SubmitInfo.signalSemaphores, Storage.readN]
    · intro s hcontra
      simp at hcontra
  | some sp =>
    have hsp := hsig (by simp [hs])
    rw [hs] at hsp
    obtain ⟨sg, hsg⟩ := Option.isSome_iff_exists.mp hsp
    refine ⟨{ (if sems.isEmpty then
        ({ pCommandBuffers := Storage.live [cb.mBuffer], commandBufferCount := 1 } : SubmitInfo)
      else
        { pCommandBuffers := Storage.live [cb.mBuffer], commandBufferCount := 1,
          pWaitSemaphores := Storage.live sems, waitSemaphoreCount := sems.length % 2 ^ 32,
          pWaitDstStageMask :=
            Storage.live (d.mWaitForDep.map (fun _ => PipelineStageFlagBits.eTopOfPipe)) }) with
        pSignalSemaphores := Storage.live [sg], signalSemaphoreCount := 1 },
      cb, sems, ?_, hcb2, hmap, ?_, ?_, ?_, ?_, ?_⟩
    · simp only [DispatchToGPU.submitInfo, hcb2, hsems, hs, hsg]
    · by_cases he : sems.isEmpty = true <;>
        simp [he, SubmitInfo.commandBuffers, Storage.readN]
    · by_cases he : sems.isEmpty = true
      · have : sems = [] := List.isEmpty_iff.mp he
        simp [this, SubmitInfo.waitSemaphores, Storage.readN]
      · rw [if_neg he]
        simp only [SubmitInfo.waitSemaphores, hmod]
        exact readN_live_all sems
    · by_cases he : sems.isEmpty = true
      · have : sems = [] := List.isEmpty_iff.mp he
        simp [this, SubmitInfo.waitDstStageMask, Storage.readN]
      · simp only [he, SubmitInfo.waitDstStageMask, hmod, hstage]
        simpa using hrep
    · intro hcontra
      simp at hcontra
    · intro s hseq
      have hspeq : sp = ISyncPrimitive.VulkanGPUSyncPrimitive s := Option.some.inj hseq
      subst hspeq
      simp [dynamic_cast_GPU] at hsg
      subst hsg
      by_cases he : sems.isEmpty = true <;>
        simp [he, SubmitInfo.signalSemaphores, Storage.readN]

theorem last_index (n : Nat) (h0 : 0 < n) (h1 : n < SIZE_MOD) :
    (n + SIZE_MOD - 1) % SIZE_MOD = n - 1 := by
  unfold SIZE_MOD at *
  omega

theorem transform_submitInfo_total (buffers : List CommandBufferSubmitInfo)
    (hwf : ∀ d ∈ buffers, d.WellFormed) :
    ∃ subs, transform DispatchToGPU.submitInfo buffers = some subs := by
  apply transform_total
  intro d hd
  obtain ⟨sub, _, _, hsub, _⟩ := submitInfo_wellFormed d (hwf d hd)
  simp [hsub]

theorem DispatchToGPU_eq (buffers : List CommandBufferSubmitInfo)
    (hwf : ∀ d ∈ buffers, d.WellFormed) (hne : buffers ≠ [])
    (hlen : buffers.length < SIZE_MOD) :
    ∃ subs last cb,
      transform DispatchToGPU.submitInfo buffers = some subs ∧
      buffers.getLast? = some last ∧
      last.mCmdBuffer = some cb ∧
      DispatchToGPU buffers
        = some { submits := subs, fence := dynamic_cast_CPU cb.mExecutionFinished } := by
  obtain ⟨subs, hsubs⟩ := transform_submitInfo_total buffers hwf
  have hpos : 0 < buffers.length := List.length_pos.mpr hne
  have hlast : buffers.getLast? = some (buffers.getLast hne) := List.getLast?_eq_getLast _ hne
  have hmem : buffers.getLast hne ∈ buffers := List.getLast_mem hne
  obtain ⟨hcb, _⟩ := hwf _ hmem
  obtain ⟨cb, hcb2⟩ := Option.isSome_iff_exists.mp hcb
  have hidx : buffers.get? ((buffers.length + SIZE_MOD - 1) % SIZE_MOD)
      = some (buffers.getLast hne) := by
    rw [last_index _ hpos hlen, List.get?_eq_getElem?, ← List.getLast?_eq_getElem?, hlast]
  refine ⟨subs, buffers.getLast hne, cb, hsubs, hlast, hcb2, ?_⟩
  simp only [DispatchToGPU, hsubs, hidx, hcb2]

/-- C3: for every list of well-formed submission descriptors, the transform of
`DispatchToGPU` produces one submission per descriptor, in the same order, and
this list is what `DispatchToGPU` submits.  The submission at position `k`
carries exactly the command buffer of descriptor `k`; its wait semaphores are
the descriptor's wait primitives in the same order, with as many stage masks,
all top-of-pipe; its signal semaphores are the descriptor's signal primitive
when one is given and none otherwise.  Nothing of another descriptor occurs
in it. -/
theorem DispatchToGPU_submissions (buffers : List CommandBufferSubmitInfo)
    (hwf : ∀ d ∈ buffers, d.WellFormed) :
    ∃ subs,
      transform DispatchToGPU.submitInfo buffers = some subs ∧
      subs.length = buffers.length ∧
      (∀ q, DispatchToGPU buffers = some q → q.submits = subs) ∧
      (buffers ≠ [] → buffers.length < SIZE_MOD →
        ∃ q, DispatchToGPU buffers = some q ∧ q.submits = subs) ∧
      ∀ k d, buffers.get? k = some d →
        ∃ sub cb sems,
          subs.get? k = some sub ∧
          d.mCmdBuffer = some cb ∧
          d.mWaitForDep
            = sems.map (fun s => some (ISyncPrimitive.VulkanGPUSyncPrimitive s)) ∧
          sub.commandBuffers = some [cb.mBuffer] ∧
          sub.waitSemaphores = some sems ∧
          sub.waitDstStageMask
            = some (List.replicate sems.length PipelineStageFlagBits.eTopOfPipe) ∧
          (d.mToSignalDep = none → sub.signalSemaphores = some []) ∧
          (∀ s, d.mToSignalDep = some (ISyncPrimitive.VulkanGPUSyncPrimitive s) →
            sub.signalSemaphores = some [s]) := by
  obtain ⟨subs, hsubs⟩ := transform_submitInfo_total buffers hwf
  refine ⟨subs, hsubs, transform_length _ _ _ hsubs, ?_, ?_, ?_⟩
  · intro q hq
    unfold DispatchToGPU at hq
    rw [hsubs] at hq
    simp only at hq
    split at hq
    · simp at hq
    · split at hq
      · simp at hq
      · simp at hq
        rw [← hq]
  · intro hne hlen
    obtain ⟨subs2, last, cb, h1, _, _, h4⟩ := DispatchToGPU_eq buffers hwf hne hlen
    rw [hsubs] at h1
    have : subs2 = subs := (Option.some.inj h1).symm
    subst this
    exact ⟨_, h4, rfl⟩
  · intro k d hk
    obtain ⟨sub, hsub, hk2⟩ := transform_get _ _ _ hsubs k d hk
    have hd : d ∈ buffers := List.get?_mem hk
    obtain ⟨sub2, cb, sems, h1, h2, h3, h4, h5, h6, h7, h8⟩ := submitInfo_wellFormed d (hwf d hd)
    rw [hsub] at h1
    have : sub2 = sub := (Option.some.inj h1).symm
    subst this
    exact ⟨sub2, cb, sems, hk2, h2, h3, h4, h5, h6, h7, h8⟩

/-- C4: for every non-empty list of well-formed submission descriptors,
`DispatchToGPU` makes its submit with the fence of the execution-finished
primitive of the last descriptor's command buffer, and with no fence when
that command buffer has no such primitive; any fence the batch signals is
that one, so no other command buffer's completion primitive is signalled. -/
theorem DispatchToGPU_fence (buffers : List CommandBufferSubmitInfo)
    (hwf : ∀ d ∈ buffers, d.WellFormed) (hne : buffers ≠ [])
    (hlen : buffers.length < SIZE_MOD) :
    ∃ q last cb,
      DispatchToGPU buffers = some q ∧
      buffers.getLast? = some last ∧
      last.mCmdBuffer = some cb ∧
      q.fence = dynamic_cast_CPU cb.mExecutionFinished ∧
      (cb.mExecutionFinished = none → q.fence = none) ∧
      (∀ f, cb.mExecutionFinished = some (ISyncPrimitive.VulkanCPUSyncPrimitive f) →
        q.fence = some f) ∧
      (∀ f, q.fence = some f →
        cb.mExecutionFinished = some (ISyncPrimitive.VulkanCPUSyncPrimitive f)) := by
  obtain ⟨subs, last, cb, _, h2, h3, h4⟩ := DispatchToGPU_eq buffers hwf hne hlen
  refine ⟨_, last, cb, h4, h2, h3, rfl, ?_, ?_, ?_⟩
  · intro h
    simp [h, dynamic_cast_CPU]
  · intro f h
    simp [h, dynamic_cast_CPU]
  · intro f h
    simp only at h
    cases he : cb.mExecutionFinished with
    | none => simp [he, dynamic_cast_CPU] at h
    | some p =>
      cases p with
      | VulkanGPUSyncPrimitive s => simp [he, dynamic_cast_CPU] at h
      | VulkanCPUSyncPrimitive g =>
        simp [he, dynamic_cast_CPU] at h
        simp [h]

/-- Witness for C3 on `exampleBatch`: two descriptors give two submissions. -/
theorem DispatchToGPU_submissions_witness :
    (∀ d ∈ exampleBatch, d.WellFormed) ∧
    ∃ subs, transform DispatchToGPU.submitInfo exampleBatch = some subs ∧
      subs.length = exampleBatch.length := by
  have hwf : ∀ d ∈ exampleBatch, d.WellFormed := by
    simp [exampleBatch, CommandBufferSubmitInfo.WellFormed, dynamic_cast_GPU]
  obtain ⟨subs, h1, h2, _⟩ := DispatchToGPU_submissions exampleBatch hwf
  exact ⟨hwf, subs, h1, h2⟩

/-- Witness for C4 on `exampleBatch`: the submit is made, with the fence of
the last command buffer. -/
theorem DispatchToGPU_fence_witness :
    (∀ d ∈ exampleBatch, d.WellFormed) ∧ exampleBatch ≠ [] ∧
    exampleBatch.length < SIZE_MOD ∧
    ∃ q last cb, DispatchToGPU exampleBatch = some q ∧
      exampleBatch.getLast? = some last ∧ last.mCmdBuffer = some cb ∧
      q.fence = dynamic_cast_CPU cb.mExecutionFinished := by
  have hwf : ∀ d ∈ exampleBatch, d.WellFormed := by
    simp [exampleBatch, CommandBufferSubmitInfo.WellFormed, dynamic_cast_GPU]
  have hne : exampleBatch ≠ [] := by simp [exampleBatch]
  have hlen : exampleBatch.length < SIZE_MOD := by simp [exampleBatch, SIZE_MOD]
  obtain ⟨q, last, cb, h1, h2, h3, h4, _⟩ := DispatchToGPU_fence exampleBatch hwf hne hlen
  exact ⟨hwf, hne, hlen, q, last, cb, h1, h2, h3, h4⟩

/-- C5 (what the code submits): for every command buffer and every optional
GPU-kind `waitFor` and `signal`, `ExecuteCommandBuffer` makes one submit of
one submission with exactly that command buffer, with `waitFor` as the only
wait semaphore when it is given and no wait semaphore otherwise, with `signal`
as the only signal semaphore when it is given and none otherwise, and with
the fence of the command buffer's execution-finished primitive.  The stage
mask pointer, however, refers to the array `stage_flags` of a block that has
been left: when `waitFor` is given the queue has no valid stage mask to
read. -/
theorem ExecuteCommandBuffer_submit (cb : VulkanCommandBuffer) (waitFor signal : Option Nat) :
    ∃ sub,
      ExecuteCommandBuffer (some cb)
          (waitFor.map ISyncPrimitive.VulkanGPUSyncPrimitive)
          (signal.map ISyncPrimitive.VulkanGPUSyncPrimitive)
        = some { submits := [sub], fence := dynamic_cast_CPU cb.mExecutionFinished } ∧
      sub.commandBuffers = some [cb.mBuffer] ∧
      sub.waitSemaphores = some waitFor.toList ∧
      sub.signalSemaphores = some signal.toList ∧
      sub.pWaitDstStageMask
        = (match waitFor with
           | none => Storage.null
           | some _ => Storage.outOfScope [PipelineStageFlagBits.eTopOfPipe]) ∧
      sub.waitDstStageMask
        = (match waitFor with
           | none => some []
           | some _ => none) := by
  cases waitFor with
  | none =>
    cases signal with
    | none =>
      exact ⟨_, rfl, rfl, rfl, rfl, rfl, rfl⟩
    | some s =>
      exact ⟨_, rfl, rfl, rfl, rfl, rfl, rfl⟩
  | some w =>
    cases signal with
    | none =>
      exact ⟨_, rfl, rfl, rfl, rfl, rfl, rfl⟩
    | some s =>
      exact ⟨_, rfl, rfl, rfl, rfl, rfl, rfl⟩

/-! ### Waiting -/

theorem transform_dynamic_cast_CPU_map (fences : List Nat) :
    transform dynamic_cast_CPU
        (fences.map (fun f => some (ISyncPrimitive.VulkanCPUSyncPrimitive f)))
      = some fences := by
  induction fences with
  | nil => rfl
  | cons f fs ih => simp [transform, dynamic_cast_CPU, ih]

/-- C6: for every list of CPU-kind primitives, `Wait` first waits for all of
their fences together (the wait-all flag is set).  When the wait succeeds it
then resets exactly the listed fences, in the listed order, so that every one
of them is unsignalled afterwards and no other fence is touched; when the
wait fails the wait is the only device call and nothing is reset. -/
theorem Wait_resets_on_success (fences : List Nat) (waitResult : VkResult) :
    (CALL_VK_API waitResult = true →
      Wait waitResult (fences.map (fun f => some (ISyncPrimitive.VulkanCPUSyncPrimitive f)))
        = some [DeviceCall.waitForFences fences true Wait.timeout,
                DeviceCall.resetFences fences] ∧
      ∀ signalled : List Nat,
        (∀ f ∈ fences,
          f ∉ DeviceCall.effects signalled
                [DeviceCall.waitForFences fences true Wait.timeout,
                 DeviceCall.resetFences fences]) ∧
        (∀ g, g ∉ fences →
          (g ∈ DeviceCall.effects signalled
                [DeviceCall.waitForFences fences true Wait.timeout,
                 DeviceCall.resetFences fences] ↔ g ∈ signalled))) ∧
    (CALL_VK_API waitResult = false →
      Wait waitResult (fences.map (fun f => some (ISyncPrimitive.VulkanCPUSyncPrimitive f)))
        = some [DeviceCall.waitForFences fences true Wait.timeout] ∧
      ∀ signalled : List Nat,
        DeviceCall.effects signalled [DeviceCall.waitForFences fences true Wait.timeout]
          = signalled) := by
  constructor
  · intro h
    refine ⟨?_, ?_⟩
    · simp [Wait, transform_dynamic_cast_CPU_map, h]
    · intro signalled
      constructor
      · intro f hf
        simp [DeviceCall.effects, DeviceCall.effect, hf]
      · intro g hg
        simp [DeviceCall.effects, DeviceCall.effect, hg]
  · intro h
    refine ⟨?_, ?_⟩
    · simp [Wait, transform_dynamic_cast_CPU_map, h]
    · intro signalled
      simp [DeviceCall.effects, DeviceCall.effect]

/-- Witness for C6: a successful wait on fences 4 and 9 resets both, a wait
that times out resets none. -/
theorem Wait_resets_on_success_witness :
    Wait VkResult.eSuccess
        ([4, 9].map (fun f => some (ISyncPrimitive.VulkanCPUSyncPrimitive f)))
      = some [DeviceCall.waitForFences [4, 9] true Wait.timeout,
              DeviceCall.resetFences [4, 9]] ∧
    Wait VkResult.eTimeout
        ([4, 9].map (fun f => some (ISyncPrimitive.VulkanCPUSyncPrimitive f)))
      = some [DeviceCall.waitForFences [4, 9] true Wait.timeout] :=
  ⟨((Wait_resets_on_success [4, 9] VkResult.eSuccess).1 (by decide)).1,
   ((Wait_resets_on_success [4, 9] VkResult.eTimeout).2 (by decide)).1⟩

/-- C7 (the code at every input): the timeout `Wait` passes to
`waitForFences` is `~0u`, the largest 32-bit value `2 ^ 32 - 1`, which is not
the largest 64-bit value `2 ^ 64 - 1`. -/
theorem Wait_timeout_is_32_bit (fences : List Nat) (waitResult : VkResult) :
    Wait.timeout = 2 ^ 32 - 1 ∧
    Wait.timeout ≠ 2 ^ 64 - 1 ∧
    ∃ rest,
      Wait waitResult (fences.map (fun f => some (ISyncPrimitive.VulkanCPUSyncPrimitive f)))
        = some (DeviceCall.waitForFences fences true (2 ^ 32 - 1) :: rest) := by
  have ht : Wait.timeout = 2 ^ 32 - 1 := by
    simp [Wait.timeout, complement_0u]
  refine ⟨ht, ?_, ?_⟩
  · rw [ht]
    norm_num
  · unfold Wait
    rw [transform_dynamic_cast_CPU_map, ht]
    cases h : CALL_VK_API waitResult with
    | false => exact ⟨[], by simp⟩
    | true => exact ⟨[DeviceCall.resetFences fences], by simp⟩

/-! ### Command buffers -/

theorem allocateCommandBuffer_succeeds (a : CommandBufferAnswer) (h : a.Succeeds) :
    ∃ cb, allocateCommandBuffer a = some (some cb) := by
  obtain ⟨h1, h2⟩ := h
  match hv : a.value with
  | [] => simp [hv] at h2
  | x :: xs =>
    exact ⟨{ mBuffer := x, mExecutionFinished := a.executionFinished },
      by simp [allocateCommandBuffer, CALL_VK_API, h1, hv]⟩

theorem GetMainCommandBuffer_cached (m : Machine) (a : CommandBufferAnswer) (p : Nat)
    (h : m.dev.mMainCmdBuffer = some p) :
    GetMainCommandBuffer m a = some (some p, m) := by
  simp [GetMainCommandBuffer, h]

theorem GetMainCommandBuffer_first (m : Machine) (a : CommandBufferAnswer)
    (ha : a.Succeeds) (h : m.dev.mMainCmdBuffer = none) :
    ∃ m1, GetMainCommandBuffer m a = some (some m.heap.length, m1) ∧
      m1.dev.mMainCmdBuffer = some m.heap.length ∧
      m1.heap.length = m.heap.length + 1 ∧
      m1.allocateCalls = m.allocateCalls + 1 := by
  obtain ⟨cb, hcb⟩ := allocateCommandBuffer_succeeds a ha
  exact ⟨{ dev := { m.dev with mMainCmdBuffer := some m.heap.length }
           heap := m.heap ++ [cb]
           allocateCalls := m.allocateCalls + 1 },
    by simp [GetMainCommandBuffer, h, hcb], rfl, by simp, rfl⟩

theorem CreateCommandBuffer_fresh (m : Machine) (a : CommandBufferAnswer) (ha : a.Succeeds) :
    ∃ m1, CreateCommandBuffer m a = some (some m.heap.length, m1) ∧
      m1.dev = m.dev ∧
      m1.heap.length = m.heap.length + 1 ∧
      m1.allocateCalls = m.allocateCalls + 1 := by
  obtain ⟨cb, hcb⟩ := allocateCommandBuffer_succeeds a ha
  exact ⟨{ m with heap := m.heap ++ [cb], allocateCalls := m.allocateCalls + 1 },
    by simp [CreateCommandBuffer, hcb], rfl, by simp, rfl⟩

/-- C8: on a device whose command-buffer allocations succeed,
(1) with a cached main buffer, `GetMainCommandBuffer` returns it and changes
nothing, so it does not allocate;
(2) without one, the first call allocates once and caches what it returns,
and the next call returns the same buffer, again without a change of state;
(3) two calls of `CreateCommandBuffer` each allocate a fresh buffer: the two
are distinct, neither is the main buffer cached before, between or after the
calls, and the device state, the cached main buffer included, is unchanged;
(4) a main buffer first requested after a `CreateCommandBuffer` is not the
created one.  The validity of the state is preserved throughout. -/
theorem command_buffer_identity (m : Machine) (a1 a2 : CommandBufferAnswer)
    (hm : m.Valid) (h1 : a1.Succeeds) (h2 : a2.Succeeds) :
    (∀ p, m.dev.mMainCmdBuffer = some p →
      GetMainCommandBuffer m a1 = some (some p, m)) ∧
    (∃ p m1, GetMainCommandBuffer m a1 = some (some p, m1) ∧
      m1.Valid ∧
      m1.dev.mMainCmdBuffer = some p ∧
      (m.dev.mMainCmdBuffer = none → m1.allocateCalls = m.allocateCalls + 1) ∧
      GetMainCommandBuffer m1 a2 = some (some p, m1)) ∧
    (∃ p1 p2 m1 m2,
      CreateCommandBuffer m a1 = some (some p1, m1) ∧
      CreateCommandBuffer m1 a2 = some (some p2, m2) ∧
      p1 ≠ p2 ∧
      m1.dev = m.dev ∧ m2.dev = m.dev ∧
      m.dev.mMainCmdBuffer ≠ some p1 ∧ m.dev.mMainCmdBuffer ≠ some p2 ∧
      m1.allocateCalls = m.allocateCalls + 1 ∧
      m2.allocateCalls = m.allocateCalls + 2 ∧
      m1.Valid ∧ m2.Valid ∧
      ∃ q m3, GetMainCommandBuffer m2 a1 = some (some q, m3) ∧ q ≠ p1 ∧ q ≠ p2) := by
  refine ⟨?_, ?_, ?_⟩
  · intro p hp
    exact GetMainCommandBuffer_cached m a1 p hp
  · cases hc : m.dev.mMainCmdBuffer with
    | some p =>
      refine ⟨p, m, GetMainCommandBuffer_cached m a1 p hc, hm, hc, ?_, ?_⟩
      · intro h
        simp at h
      · exact GetMainCommandBuffer_cached m a2 p hc
    | none =>
      obtain ⟨m1, e1, e2, e3, e4⟩ := GetMainCommandBuffer_first m a1 h1 hc
      refine ⟨m.heap.length, m1, e1, ?_, e2, fun _ => e4, ?_⟩
      · intro p hp
        rw [e2] at hp
        have : p = m.heap.length := (Option.some.inj hp).symm
        omega
      · exact GetMainCommandBuffer_cached m1 a2 _ e2
  · obtain ⟨m1, e1, e2, e3, e4⟩ := CreateCommandBuffer_fresh m a1 h1
    obtain ⟨m2, f1, f2, f3, f4⟩ := CreateCommandBuffer_fresh m1 a2 h2
    have hv1 : m1.Valid := by
      intro p hp
      rw [e2] at hp
      have := hm p hp
      omega
    have hv2 : m2.Valid := by
      intro p hp
      rw [f2] at hp
      have := hv1 p hp
      omega
    have hn1 : m.dev.mMainCmdBuffer ≠ some m.heap.length := by
      intro hp
      have := hm _ hp
      omega
    have hn2 : m.dev.mMainCmdBuffer ≠ some m1.heap.length := by
      intro hp
      have := hm _ hp
      omega
    refine ⟨m.heap.length, m1.heap.length, m1, m2, e1, f1, by omega, e2, by rw [f2, e2],
      hn1, hn2, e4, by omega, hv1, hv2, ?_⟩
    cases hc : m2.dev.mMainCmdBuffer with
    | some q =>
      have hq := hv2 q hc
      rw [f2, e2] at hc
      have hq0 := hm q hc
      refine ⟨q, m2, GetMainCommandBuffer_cached m2 a1 q (by rw [f2, e2]; exact hc), ?_, ?_⟩
      · omega
      · omega
    | none =>
      obtain ⟨m3, g1, _⟩ := GetMainCommandBuffer_first m2 a1 h1 hc
      exact ⟨m2.heap.length, m3, g1, by omega, by omega⟩

/-- Witness for C8: from a fresh device, the main buffer is at address 0 both
times it is asked for. -/
theorem command_buffer_identity_witness :
    exampleMachine.Valid ∧ (exampleAnswer 40 1).Succeeds ∧ (exampleAnswer 41 2).Succeeds ∧
    ∃ p m1, GetMainCommandBuffer exampleMachine (exampleAnswer 40 1) = some (some p, m1) ∧
      GetMainCommandBuffer m1 (exampleAnswer 41 2) = some (some p, m1) := by
  have hv : exampleMachine.Valid := by
    intro p hp
    simp [exampleMachine] at hp
  have h1 : (exampleAnswer 40 1).Succeeds := by decide
  have h2 : (exampleAnswer 41 2).Succeeds := by decide
  obtain ⟨_, ⟨p, m1, e1, _, _, _, e2⟩, _⟩ :=
    command_buffer_identity exampleMachine (exampleAnswer 40 1) (exampleAnswer 41 2) hv h1 h2
  exact ⟨hv, h1, h2, p, m1, e1, e2⟩

/-! ### The mip loop -/

theorem foldl_staging (l : List ImageBufferInitData) :
    ∀ acc, acc + (l.map (fun d => d.mSize)).sum < 2 ^ 32 →
      l.foldl (fun t x => (t + x.mSize) % 2 ^ 32) acc = acc + (l.map (fun d => d.mSize)).sum := by
  induction l with
  | nil =>
    intro acc _
    simp
  | cons d l ih =>
    intro acc h
    simp only [List.map_cons, List.sum_cons] at h
    simp only [List.foldl_cons, List.map_cons, List.sum_cons]
    have hm : (acc + d.mSize) % 2 ^ 32 = acc + d.mSize := Nat.mod_eq_of_lt (by omega)
    rw [hm, ih (acc + d.mSize) (by omega)]
    omega

theorem staging_buffer_size_eq (params : ImageBufferCreateParams)
    (h : totalPayload params < 2 ^ 32) :
    staging_buffer_size params = totalPayload params := by
  unfold staging_buffer_size totalPayload at *
  rw [foldl_staging _ 0 (by omega)]
  omega

theorem mipOffset_succ (params : ImageBufferCreateParams) (i : Nat) :
    mipOffset params (i + 1) = mipOffset params i + mipSize params i := by
  unfold mipOffset mipSize
  rw [List.take_succ]
  cases params.mPreinitData[i]? with
  | none => simp
  | some d => simp

theorem mipOffset_mono (params : ImageBufferCreateParams) (i : Nat) :
    ∀ n, mipOffset params i ≤ mipOffset params (i + n) := by
  intro n
  induction n with
  | zero => simp
  | succ n ih =>
    have := mipOffset_succ params (i + n)
    rw [← Nat.add_assoc]
    omega

theorem mipOffset_le_total (params : ImageBufferCreateParams) (i : Nat) :
    mipOffset params i ≤ totalPayload params := by
  unfold mipOffset totalPayload
  have h := List.sum_take_add_sum_drop (params.mPreinitData.map (fun d => d.mSize)) i
  rw [List.map_take]
  omega

theorem mipRegions_succ (params : ImageBufferCreateParams) (i : Nat) :
    mipRegions params (i + 1)
      = mipRegions params i ++
          (if mipSize params i ≠ 0 then [mipRegion params i] else []) := by
  unfold mipRegions
  rw [List.range_succ, List.filter_append, List.map_append]
  by_cases h : mipSize params i = 0
  · simp [h]
  · simp [h]

theorem mipStep_staged (params : ImageBufferCreateParams) (buffer_memory : Nat → Nat)
    (htotal : totalPayload params < 2 ^ 32) (i : Nat) (st : MipLoopState)
    (hi : i < params.mPreinitData.length)
    (hst : st.StagedUpTo params buffer_memory i) :
    ∃ st1, mipStep params (staging_buffer_size params) i st = some st1 ∧
      st1.StagedUpTo params buffer_memory (i + 1) := by
  obtain ⟨hoff, hreg, hmem, hrest⟩ := hst
  have hsz := staging_buffer_size_eq params htotal
  obtain ⟨d, hd⟩ : ∃ d, params.mPreinitData[i]? = some d := by
    exact ⟨params.mPreinitData[i], List.getElem?_eq_getElem hi⟩
  have hsize : mipSize params i = d.mSize := by simp [mipSize, hd]
  have hsucc := mipOffset_succ params i
  rw [hsize] at hsucc
  have hle := mipOffset_le_total params (i + 1)
  by_cases hz : d.mSize = 0
  · refine ⟨st, ?_, ?_, ?_, ?_, ?_⟩
    · simp [mipStep, hd, hz]
    · omega
    · rw [mipRegions_succ, hsize]
      simp [hz, hreg]
    · intro k e hk hke j hj
      by_cases hki : k < i
      · exact hmem k e hki hke j hj
      · have : k = i := by omega
        subst this
        rw [hd] at hke
        have : e = d := (Option.some.inj hke).symm
        subst this
        omega
    · intro a ha
      exact hrest a (by omega)
  · have hfit : ¬ st.offset + d.mSize > staging_buffer_size params := by
      rw [hsz, hoff]
      omega
    have hnz : ¬ d.mSize ≤ 0 := by omega
    refine ⟨{ offset := (st.offset + d.mSize) % 2 ^ 32
              copy_regions := st.copy_regions ++
                [⟨⟨st.offset, 0, 0⟩,
                  ⟨⟨i, 0, 1⟩, 0, 0, 0, mipExtent params.mWidth i,
                    mipExtent params.mHeight i, 1⟩⟩]
              buffer_memory := memcpy st.buffer_memory st.offset d.mData d.mSize },
      ?_, ?_, ?_, ?_, ?_⟩
    · simp only [mipStep, hd, hnz, hfit, if_false]
    · show (st.offset + d.mSize) % 2 ^ 32 = mipOffset params (i + 1)
      rw [hoff, Nat.mod_eq_of_lt (by omega)]
      omega
    · show st.copy_regions ++ _ = mipRegions params (i + 1)
      rw [mipRegions_succ, hsize, hreg, hoff]
      simp [hz, mipRegion]
    · intro k e hk hke j hj
      show memcpy st.buffer_memory st.offset d.mData d.mSize (mipOffset params k + j) = e.mData j
      by_cases hki : k < i
      · have hprev := hmem k e hki hke j hj
        have hks : mipOffset params (k + 1) = mipOffset params k + e.mSize := by
          rw [mipOffset_succ]
          simp [mipSize, hke]
        have hmono := mipOffset_mono params (k + 1) (i - (k + 1))
        have hidx : k + 1 + (i - (k + 1)) = i := by omega
        rw [hidx] at hmono
        have hlt : ¬ (st.offset ≤ mipOffset params k + j ∧
            mipOffset params k + j < st.offset + d.mSize) := by
          rw [hoff]
          omega
        simp only [memcpy, hlt, if_false]
        exact hprev
      · have : k = i := by omega
        subst this
        rw [hd] at hke
        have : e = d := (Option.some.inj hke).symm
        subst this
        have hin : st.offset ≤ mipOffset params k + j ∧
            mipOffset params k + j < st.offset + e.mSize := by
          rw [hoff]
          omega
        simp only [memcpy, hin, and_self, if_true]
        rw [hoff]
        simp
    · intro a ha
      show memcpy st.buffer_memory st.offset d.mData d.mSize a = buffer_memory a
      have hlt : ¬ (st.offset ≤ a ∧ a < st.offset + d.mSize) := by
        rw [hoff]
        omega
      simp only [memcpy, hlt, if_false]
      exact hrest a (by omega)

theorem mipLoop_staged (params : ImageBufferCreateParams) (buffer_memory : Nat → Nat)
    (htotal : totalPayload params < 2 ^ 32) :
    ∀ (n i : Nat) (st : MipLoopState), i + n ≤ params.mPreinitData.length →
      st.StagedUpTo params buffer_memory i →
      ∃ st1, mipLoop params (staging_buffer_size params) n i st = some st1 ∧
        st1.StagedUpTo params buffer_memory (i + n) := by
  intro n
  induction n with
  | zero =>
    intro i st _ hst
    exact ⟨st, rfl, hst⟩
  | succ n ih =>
    intro i st hlen hst
    obtain ⟨st1, h1, h2⟩ := mipStep_staged params buffer_memory htotal i st (by omega) hst
    obtain ⟨st2, h3, h4⟩ := ih (i + 1) st1 (by omega) h2
    refine ⟨st2, ?_, ?_⟩
    · simp only [mipLoop, h1, h3]
    · have : i + 1 + n = i + (n + 1) := by omega
      rw [this] at h4
      exact h4

/-! ### Upload of initial image data -/

/-- C2: for every request with non-empty initial data whose staging part is
defined, on a device where the transfer command buffer is allocated and has a
CPU-kind completion primitive (fence `f`), `CreateImageBuffer` returns the
image after exactly these calls, in this order: `BeginRecord`; one barrier
Host to Transfer taking the image from Undefined to TransferDst over mip
levels `[0, mMipLevels)`; one `CopyBufferToImage` from the staging buffer
with layout TransferDst and the regions of the mip loop; one barrier Transfer
to PixelShader taking the same image from TransferDst to ShaderReadOnly over
the same range; `EndRecord`; one submit of that command buffer with no wait
and no signal semaphore and with fence `f`; the wait for fence `f`, followed
by its reset when the wait succeeds. -/
theorem CreateImageBuffer_upload_sequence (m : Machine) (params : ImageBufferCreateParams)
    (env : CreateImageAnswers) (st : MipLoopState) (f : Nat)
    (hdata : params.mPreinitData ≠ [])
    (hstage : stageMips params env.buffer_memory = some st)
    (hcmd : env.cmd.Succeeds)
    (hfence : env.cmd.executionFinished = some (ISyncPrimitive.VulkanCPUSyncPrimitive f)) :
    ∃ handle,
      env.cmd.value = [handle] ∧
      (CreateImageBuffer m params env).map (fun out => (out.result, out.calls)) =
        some (env.image,
        [ UploadCall.BeginRecord m.heap.length,
          UploadCall.PipelineBarrier m.heap.length
            { mSrcStage := PipelineStage.Host
              mDstStage := PipelineStage.Transfer
              mImageMemoryBarriers :=
                [ { mImage := env.image
                    mSrcLayout := ImageLayout.Undefined
                    mDstLayout := ImageLayout.TransferDst
                    mSrcMemoryAccess := MemoryAccessFlags.Unknown
                    mDstMemoryAccess := MemoryAccessFlags.TransferWrite
                    mSubresRange := ⟨0, params.mMipLevels, 0, 1⟩ } ] },
          UploadCall.CopyBufferToImage m.heap.length
            { mBuffer := env.staging_buffer
              mImage := env.image
              mImageLayout := ImageLayout.TransferDst
              mRegions := st.copy_regions },
          UploadCall.PipelineBarrier m.heap.length
            { mSrcStage := PipelineStage.Transfer
              mDstStage := PipelineStage.PixelShader
              mImageMemoryBarriers :=
                [ { mImage := env.image
                    mSrcLayout := ImageLayout.TransferDst
                    mDstLayout := ImageLayout.ShaderReadOnly
                    mSrcMemoryAccess := MemoryAccessFlags.TransferWrite
                    mDstMemoryAccess := MemoryAccessFlags.ShaderRead
                    mSubresRange := ⟨0, params.mMipLevels, 0, 1⟩ } ] },
          UploadCall.EndRecord m.heap.length,
          UploadCall.submit
            { submits := [ { commandBufferCount := 1
                             pCommandBuffers := Storage.live [handle]
                             waitSemaphoreCount := 0
                             pWaitSemaphores := Storage.null
                             pWaitDstStageMask := Storage.null
                             signalSemaphoreCount := 0
                             pSignalSemaphores := Storage.null } ]
              fence := some f },
          UploadCall.device (DeviceCall.waitForFences [f] true Wait.timeout) ]
        ++ (if CALL_VK_API env.waitResult = true then
              [UploadCall.device (DeviceCall.resetFences [f])]
            else [])) := by
  obtain ⟨hres, hlen⟩ := hcmd
  have hpos : ¬ params.mPreinitData.length ≤ 0 := by
    have := List.length_pos.mpr hdata
    omega
  match hv : env.cmd.value with
  | [] => simp [hv] at hlen
  | handle :: rest =>
    have hrest : rest = [] := by
      simp [hv] at hlen
      exact hlen
    subst hrest
    refine ⟨handle, rfl, ?_⟩
    have hok : CALL_VK_API env.cmd.result = true := by simp [CALL_VK_API, hres]
    cases hw : CALL_VK_API env.waitResult with
    | false =>
      simp only [CreateImageBuffer, CreateBuffer, hpos, hstage, CreateCommandBuffer,
        allocateCommandBuffer, hok, hw, hv, hfence, ExecuteCommandBuffer, Wait, transform,
        dynamic_cast_CPU]
      simp
    | true =>
      simp only [CreateImageBuffer, CreateBuffer, hpos, hstage, CreateCommandBuffer,
        allocateCommandBuffer, hok, hw, hv, hfence, ExecuteCommandBuffer, Wait, transform,
        dynamic_cast_CPU]
      simp

theorem sum_filter_ne_zero (l : List Nat) :
    (l.filter (fun x => decide (x ≠ 0))).sum = l.sum := by
  induction l with
  | nil => rfl
  | cons x l ih =>
    simp only [ne_eq, decide_not] at ih ⊢
    by_cases h : x = 0
    · simp [h, ih]
    · simp [h, ih]

theorem CreateImageBuffer_staging (m : Machine) (params : ImageBufferCreateParams)
    (env : CreateImageAnswers) (st : MipLoopState) (out : CreateImageOutcome)
    (hdata : params.mPreinitData ≠ [])
    (hstage : stageMips params env.buffer_memory = some st)
    (hout : CreateImageBuffer m params env = some out) :
    out.staging = some (staging_buffer_size params, st) := by
  have hpos : ¬ params.mPreinitData.length ≤ 0 := by
    have := List.length_pos.mpr hdata
    omega
  simp only [CreateImageBuffer, CreateBuffer, hpos, hstage, if_false] at hout
  split at hout
  · simp at hout
  · simp at hout
  · split at hout
    · simp at hout
    · split at hout
      · simp at hout
      · split at hout
        · simp at hout
        · simp only [Option.some.injEq] at hout
          rw [← hout]

theorem stageMips_staged (params : ImageBufferCreateParams) (buffer_memory : Nat → Nat)
    (hmips : params.mMipLevels ≤ params.mPreinitData.length)
    (htotal : totalPayload params < 2 ^ 32) :
    ∃ st, stageMips params buffer_memory = some st ∧
      st.StagedUpTo params buffer_memory params.mMipLevels := by
  have hinit : MipLoopState.StagedUpTo params buffer_memory 0
      { offset := 0, copy_regions := [], buffer_memory := buffer_memory } := by
    refine ⟨?_, ?_, ?_, ?_⟩
    · simp [mipOffset]
    · simp [mipRegions]
    · intro k d hk
      omega
    · intro a _
      rfl
  obtain ⟨st, h1, h2⟩ :=
    mipLoop_staged params buffer_memory htotal params.mMipLevels 0 _ (by omega) hinit
  rw [Nat.zero_add] at h2
  exact ⟨st, h1, h2⟩

theorem CreateImageBuffer_outcome (m : Machine) (params : ImageBufferCreateParams)
    (env : CreateImageAnswers) (st : MipLoopState) (f handle : Nat)
    (hdata : params.mPreinitData ≠ [])
    (hstage : stageMips params env.buffer_memory = some st)
    (hres : env.cmd.result = VkResult.eSuccess)
    (hv : env.cmd.value = [handle])
    (hfence : env.cmd.executionFinished = some (ISyncPrimitive.VulkanCPUSyncPrimitive f)) :
    (CreateImageBuffer m params env).map (fun out => (out.result, out.staging, out.calls)) =
      some (env.image, some (staging_buffer_size params, st),
        [ UploadCall.BeginRecord m.heap.length,
          UploadCall.PipelineBarrier m.heap.length
            { mSrcStage := PipelineStage.Host
              mDstStage := PipelineStage.Transfer
              mImageMemoryBarriers :=
                [ { mImage := env.image
                    mSrcLayout := ImageLayout.Undefined
                    mDstLayout := ImageLayout.TransferDst
                    mSrcMemoryAccess := MemoryAccessFlags.Unknown
                    mDstMemoryAccess := MemoryAccessFlags.TransferWrite
                    mSubresRange := ⟨0, params.mMipLevels, 0, 1⟩ } ] },
          UploadCall.CopyBufferToImage m.heap.length
            { mBuffer := env.staging_buffer
              mImage := env.image
              mImageLayout := ImageLayout.TransferDst
              mRegions := st.copy_regions },
          UploadCall.PipelineBarrier m.heap.length
            { mSrcStage := PipelineStage.Transfer
              mDstStage := PipelineStage.PixelShader
              mImageMemoryBarriers :=
                [ { mImage := env.image
                    mSrcLayout := ImageLayout.TransferDst
                    mDstLayout := ImageLayout.ShaderReadOnly
                    mSrcMemoryAccess := MemoryAccessFlags.TransferWrite
                    mDstMemoryAccess := MemoryAccessFlags.ShaderRead
                    mSubresRange := ⟨0, params.mMipLevels, 0, 1⟩ } ] },
          UploadCall.EndRecord m.heap.length,
          UploadCall.submit
            { submits := [ { commandBufferCount := 1
                             pCommandBuffers := Storage.live [handle]
                             waitSemaphoreCount := 0
                             pWaitSemaphores := Storage.null
                             pWaitDstStageMask := Storage.null
                             signalSemaphoreCount := 0
                             pSignalSemaphores := Storage.null } ]
              fence := some f },
          UploadCall.device (DeviceCall.waitForFences [f] true Wait.timeout) ]
        ++ (if CALL_VK_API env.waitResult = true then
              [UploadCall.device (DeviceCall.resetFences [f])]
            else [])) := by
  have hpos : ¬ params.mPreinitData.length ≤ 0 := by
    have := List.length_pos.mpr hdata
    omega
  have hok : CALL_VK_API env.cmd.result = true := by simp [CALL_VK_API, hres]
  cases hw : CALL_VK_API env.waitResult with
  | false =>
    simp only [CreateImageBuffer, CreateBuffer, hpos, hstage, CreateCommandBuffer,
      allocateCommandBuffer, hok, hw, hv, hfence, ExecuteCommandBuffer, Wait, transform,
      dynamic_cast_CPU]
    simp
  | true =>
    simp only [CreateImageBuffer, CreateBuffer, hpos, hstage, CreateCommandBuffer,
      allocateCommandBuffer, hok, hw, hv, hfence, ExecuteCommandBuffer, Wait, transform,
      dynamic_cast_CPU]
    simp

theorem CreateImageBuffer_copies (m : Machine) (params : ImageBufferCreateParams)
    (env : CreateImageAnswers) (st : MipLoopState) (f : Nat)
    (hdata : params.mPreinitData ≠ [])
    (hstage : stageMips params env.buffer_memory = some st)
    (hcmd : env.cmd.Succeeds)
    (hfence : env.cmd.executionFinished = some (ISyncPrimitive.VulkanCPUSyncPrimitive f)) :
    ∃ out, CreateImageBuffer m params env = some out ∧
      out.result = env.image ∧
      out.staging = some (staging_buffer_size params, st) ∧
      UploadCall.CopyBufferToImage m.heap.length
        { mBuffer := env.staging_buffer
          mImage := env.image
          mImageLayout := ImageLayout.TransferDst
          mRegions := st.copy_regions } ∈ out.calls := by
  obtain ⟨hres, hlen⟩ := hcmd
  match hv : env.cmd.value with
  | [] => simp [hv] at hlen
  | handle :: rest =>
    have hrest : rest = [] := by
      simp [hv] at hlen
      exact hlen
    subst hrest
    have hout := CreateImageBuffer_outcome m params env st f handle hdata hstage hres hv hfence
    cases hr : CreateImageBuffer m params env with
    | none => simp [hr] at hout
    | some out =>
      simp only [hr, Option.map_some', Option.some.injEq, Prod.mk.injEq] at hout
      obtain ⟨e1, e2, e3⟩ := hout
      refine ⟨out, rfl, e1, e2, ?_⟩
      rw [e3]
      simp

/-- C1: for every request whose mip count is at most the number of pre-init
entries and whose total payload is below `2 ^ 32` bytes, the mip loop of
`CreateImageBuffer` completes and
* emits exactly one copy region for every mip of non-zero size among the
  first `mMipLevels` entries, in increasing mip order (`mipRegions`);
* the region of mip `i` targets mip level `i` itself and starts in the
  staging buffer at the sum of the sizes of all mips before `i`, which is
  also the sum of the non-zero sizes before `i`;
* the staging memory holds the bytes of every mip `i` at that offset;
* the final offset is the sum of the sizes of the first `mMipLevels` mips;
* the extents of a region are the shifted dimensions for a mip level below
  32 and have no defined value from mip level 32 on.
With non-empty initial data, on a device where the transfer command buffer is
allocated and has its fence, `CreateImageBuffer` returns the image after a
`CopyBufferToImage` from the staging buffer with exactly these regions, the
staging memory being in this state. -/
theorem stageMips_copy_regions (params : ImageBufferCreateParams) (buffer_memory : Nat → Nat)
    (hmips : params.mMipLevels ≤ params.mPreinitData.length)
    (htotal : totalPayload params < 2 ^ 32) :
    ∃ st, stageMips params buffer_memory = some st ∧
      st.copy_regions = mipRegions params params.mMipLevels ∧
      st.copy_regions.map (fun r => r.mTo.mSubresource.mipLevel)
        = (List.range params.mMipLevels).filter (fun i => decide (mipSize params i ≠ 0)) ∧
      (∀ r ∈ st.copy_regions,
        r.mFrom.mOffset = mipOffset params r.mTo.mSubresource.mipLevel) ∧
      (∀ i, mipOffset params i
        = (((params.mPreinitData.take i).map (fun d => d.mSize)).filter
            (fun x => decide (x ≠ 0))).sum) ∧
      (∀ i d, i < params.mMipLevels → params.mPreinitData[i]? = some d →
        ∀ j, j < d.mSize → st.buffer_memory (mipOffset params i + j) = d.mData j) ∧
      st.offset = mipOffset params params.mMipLevels ∧
      (∀ r ∈ st.copy_regions,
        (r.mTo.mSubresource.mipLevel < 32 →
          r.mTo.mExtentW = some (max (params.mWidth >>> r.mTo.mSubresource.mipLevel) 1) ∧
          r.mTo.mExtentH = some (max (params.mHeight >>> r.mTo.mSubresource.mipLevel) 1)) ∧
        (32 ≤ r.mTo.mSubresource.mipLevel →
          r.mTo.mExtentW = none ∧ r.mTo.mExtentH = none)) ∧
      (∀ (m : Machine) (env : CreateImageAnswers) (f : Nat),
        params.mPreinitData ≠ [] → env.buffer_memory = buffer_memory →
        env.cmd.Succeeds →
        env.cmd.executionFinished = some (ISyncPrimitive.VulkanCPUSyncPrimitive f) →
        ∃ out, CreateImageBuffer m params env = some out ∧
          out.result = env.image ∧
          out.staging = some (staging_buffer_size params, st) ∧
          UploadCall.CopyBufferToImage m.heap.length
            { mBuffer := env.staging_buffer
              mImage := env.image
              mImageLayout := ImageLayout.TransferDst
              mRegions := mipRegions params params.mMipLevels } ∈ out.calls) := by
  obtain ⟨st, h1, h2, h3, h4, _⟩ := stageMips_staged params buffer_memory hmips htotal
  refine ⟨st, h1, h3, ?_, ?_, ?_, h4, h2, ?_, ?_⟩
  · rw [h3]
    unfold mipRegions
    rw [List.map_map]
    have : ((fun r : BufferToImageCopySubInfo => r.mTo.mSubresource.mipLevel) ∘ mipRegion params)
        = id := by
      funext i
      rfl
    rw [this, List.map_id]
  · intro r hr
    rw [h3] at hr
    unfold mipRegions at hr
    obtain ⟨i, _, hi⟩ := List.mem_map.mp hr
    rw [← hi]
    rfl
  · intro i
    unfold mipOffset
    rw [sum_filter_ne_zero]
  · intro r hr
    rw [h3] at hr
    unfold mipRegions at hr
    obtain ⟨i, _, hi⟩ := List.mem_map.mp hr
    rw [← hi]
    constructor
    · intro hlt
      have hlt2 : i < 32 := hlt
      simp [mipRegion, mipExtent, hlt2]
    · intro hge
      have hge2 : ¬ i < 32 := Nat.not_lt.mpr hge
      simp [mipRegion, mipExtent, hge2]
  · intro m env f hdata henv hcmd hfence
    subst henv
    have := CreateImageBuffer_copies m params env st f hdata h1 hcmd hfence
    rw [h3] at this
    exact this

/-- Witness for C1 on `exampleParams`: three mips of sizes 4, 0 and 2 give
regions for mip levels 0 and 2, and on a fresh device the image at address 1
is returned after the copy. -/
theorem stageMips_copy_regions_witness :
    exampleParams.mMipLevels ≤ exampleParams.mPreinitData.length ∧
    totalPayload exampleParams < 2 ^ 32 ∧
    ∃ st, stageMips exampleParams exampleAnswers.buffer_memory = some st ∧
      st.copy_regions.map (fun r => r.mTo.mSubresource.mipLevel) = [0, 2] ∧
      ∃ out, CreateImageBuffer exampleMachine exampleParams exampleAnswers = some out ∧
        out.result = 1 := by
  have h1 : exampleParams.mMipLevels ≤ exampleParams.mPreinitData.length := by
    simp [exampleParams]
  have h2 : totalPayload exampleParams < 2 ^ 32 := by
    simp [exampleParams, totalPayload]
  obtain ⟨st, e1, _, e3, _, _, _, _, _, e9⟩ :=
    stageMips_copy_regions exampleParams exampleAnswers.buffer_memory h1 h2
  obtain ⟨out, o1, o2, _⟩ := e9 exampleMachine exampleAnswers 5
    (by simp [exampleParams]) rfl (by decide) rfl
  refine ⟨h1, h2, st, e1, ?_, out, o1, ?_⟩
  · rw [e3]
    decide
  · rw [o2]
    rfl

/-- Witness for C2 on `exampleParams`, `exampleAnswers` and a fresh device:
the upload runs and the image at address 1 is returned. -/
theorem CreateImageBuffer_upload_sequence_witness :
    ∃ st handle, stageMips exampleParams exampleAnswers.buffer_memory = some st ∧
      exampleAnswers.cmd.value = [handle] ∧
      (CreateImageBuffer exampleMachine exampleParams exampleAnswers).map
        (fun out => out.result) = some 1 := by
  obtain ⟨st, hst, _⟩ := stageMips_staged exampleParams exampleAnswers.buffer_memory
    (by simp [exampleParams]) (by simp [exampleParams, totalPayload])
  obtain ⟨handle, hv, hc⟩ := CreateImageBuffer_upload_sequence exampleMachine exampleParams
    exampleAnswers st 5 (by simp [exampleParams]) hst (by decide) rfl
  refine ⟨st, handle, hst, hv, ?_⟩
  cases hr : CreateImageBuffer exampleMachine exampleParams exampleAnswers with
  | none => simp [hr] at hc
  | some out =>
    simp only [hr, Option.map_some', Option.some.injEq, Prod.mk.injEq] at hc
    simp [hc.1, exampleAnswers]

/-! ### Selection functions -/

/-- C9 (the code at the failing input): for every device state,
`SetCurrentAdapter` called with `id` equal to the number of enumerated
adapters returns success and stores that `id` as the current adapter, although
it is not an index into the adapter list; the sibling `GetAdapterInfo`
rejects the same `id`. -/
theorem SetCurrentAdapter_accepts_count (s : VulkanDeviceState) :
    s.SetCurrentAdapter s.m_aAdapters.length
      = (true, { s with m_uiCurrentAdapter := s.m_aAdapters.length }) ∧
    s.m_aAdapters.get? s.m_aAdapters.length = none ∧
    (s.GetAdapterInfo s.m_aAdapters.length).1 = false := by
  refine ⟨?_, ?_, ?_⟩
  · simp [VulkanDeviceState.SetCurrentAdapter]
  · simp
  · simp [VulkanDeviceState.GetAdapterInfo]

/-- C10: `SetCurrentOutput` returns failure and leaves the whole state
unchanged for every `id` that is not an index into the display list; for
every valid index it returns success and the current output becomes `id`.
In both cases the current adapter and the current display mode stay as they
were. -/
theorem SetCurrentOutput_bounds (s : VulkanDeviceState) (id : Nat) :
    (id ≥ s.m_aDisplayInfos.length →
      (s.SetCurrentOutput id).1 = false ∧
      (s.SetCurrentOutput id).2.m_uiCurrentOutput = s.m_uiCurrentOutput) ∧
    (id < s.m_aDisplayInfos.length →
      (s.SetCurrentOutput id).1 = true ∧
      (s.SetCurrentOutput id).2.m_uiCurrentOutput = id) ∧
    (s.SetCurrentOutput id).2.m_uiCurrentAdapter = s.m_uiCurrentAdapter ∧
    (s.SetCurrentOutput id).2.m_uiCurrentAdapterMode = s.m_uiCurrentAdapterMode := by
  unfold VulkanDeviceState.SetCurrentOutput
  by_cases h : id ≥ s.m_aDisplayInfos.length
  · simp [h]
  · have h2 : id < s.m_aDisplayInfos.length := Nat.lt_of_not_ge h
    simp [h, h2]

/-- Witness for C10 on a device with two displays: index 2 is rejected and
index 1 is accepted. -/
theorem SetCurrentOutput_bounds_witness :
    ((VulkanDeviceState.mk [7] [⟨"A", []⟩, ⟨"B", []⟩] 0 0 0 none).SetCurrentOutput 2).1 = false ∧
    ((VulkanDeviceState.mk [7] [⟨"A", []⟩, ⟨"B", []⟩] 0 0 0 none).SetCurrentOutput 1).2.m_uiCurrentOutput = 1 :=
  ⟨((SetCurrentOutput_bounds (VulkanDeviceState.mk [7] [⟨"A", []⟩, ⟨"B", []⟩] 0 0 0 none) 2).1
      (by decide)).1,
   ((SetCurrentOutput_bounds (VulkanDeviceState.mk [7] [⟨"A", []⟩, ⟨"B", []⟩] 0 0 0 none) 1).2.1
      (by decide)).2⟩

/-- C11 (the code at a failing input): on a device whose only display has
two modes, `SetCurrentDisplayMode( 2 )` returns success and stores 2 as the
current display mode, while the sibling `GetDisplayModeInfo( 2 )` rejects the
same index.  In general `SetCurrentDisplayMode` accepts every `id`: it
returns success and `id` becomes the current display mode. -/
theorem SetCurrentDisplayMode_accepts_all (s : VulkanDeviceState) (id : Nat) :
    s.SetCurrentDisplayMode id = (true, { s with m_uiCurrentAdapterMode := id }) ∧
    (exampleDisplayState.SetCurrentDisplayMode 2).1 = true ∧
    (exampleDisplayState.SetCurrentDisplayMode 2).2.m_uiCurrentAdapterMode = 2 ∧
    (exampleDisplayState.SetCurrentDisplayMode 2).2.m_uiCurrentAdapterMode
      ≠ exampleDisplayState.m_uiCurrentAdapterMode ∧
    exampleDisplayState.GetDisplayModeInfo 2 = some (false, none) := by
  refine ⟨rfl, rfl, rfl, ?_, ?_⟩
  · decide
  · decide

/-- C12 (the code at the failing inputs): for every device state,
`GetOutputCount` with `adapterId` equal to the number of adapters returns
success and writes the number of displays to `count`, although the sibling
`GetAdapterInfo` rejects that index; and `GetDisplayModeCount` with an
`outputId` that is not an index into the display list does not return failure
but reads `m_aDisplayInfos[outputId]` outside the list. -/
theorem count_queries_unchecked (s : VulkanDeviceState) (outputId : Nat) :
    s.GetOutputCount s.m_aAdapters.length
      = (true, some (s.m_aDisplayInfos.length % 2 ^ 32)) ∧
    (s.GetAdapterInfo s.m_aAdapters.length).1 = false ∧
    s.GetDisplayModeCount (s.m_aDisplayInfos.length + outputId) = none ∧
    (s.GetOutputInfo (s.m_aDisplayInfos.length + outputId)).1 = false := by
  refine ⟨?_, ?_, ?_, ?_⟩
  · simp [VulkanDeviceState.GetOutputCount]
  · simp [VulkanDeviceState.GetAdapterInfo]
  · have h : s.m_aDisplayInfos.get? (s.m_aDisplayInfos.length + outputId) = none :=
      List.get?_eq_none.mpr (by omega)
    simp only [VulkanDeviceState.GetDisplayModeCount, h]
  · simp [VulkanDeviceState.GetOutputInfo]

/-! ### Initialization and shutdown -/

/-- C14 (the code at a failing input): on an adapter whose only queue family
supports compute and transfer but not graphics, with device and command pool
created, `Init` returns success for every previous content of the members.
The graphics queue family index it keeps, and uses for the device queue and
the command pool, is the one the member held before the call, because the
loop never assigns it; with a previous value of 0 this is the index of the
family without graphics support. -/
theorem Init_without_graphics_family (h : DeviceHandles) :
    (∀ f ∈ exampleNoGraphics.queue_family_properties 7, hasFlag f eGraphics = false) ∧
    Init exampleInitState h exampleNoGraphics
      = some (true,
              { m_iGraphicsQueueFamilyIdx := h.m_iGraphicsQueueFamilyIdx
                m_iCopyQueueFamilyIdx := 0
                m_vkDevice := 50
                m_vkMainQueue := 51
                m_vkCommandPool := 52
                mDefaultAllocator := some 53 },
              [ InitCall.createDevice 7 h.m_iGraphicsQueueFamilyIdx,
                InitCall.getQueue 50 h.m_iGraphicsQueueFamilyIdx 0,
                InitCall.createCommandPool 50 h.m_iGraphicsQueueFamilyIdx,
                InitCall.newAllocator 7 50 ]) := by
  constructor
  · decide
  · rfl

/-- C15: `Shutdown` makes exactly four releases, in this order: `delete` of
the default allocator, `delete` of the cached main command buffer, whose
cache slot is `nullptr` afterwards, destruction of the command pool, and
destruction of the logical device, which comes last.  It returns `true` and
changes nothing else.  When the allocator and a cached main command buffer
exist, each of the four releases destroys an object. -/
theorem Shutdown_order (m : Machine) (h : DeviceHandles) :
    (Shutdown m h).2.2.2
      = [ ShutdownCall.deleteAllocator h.mDefaultAllocator,
          ShutdownCall.deleteCommandBuffer m.dev.mMainCmdBuffer,
          ShutdownCall.destroyCommandPool h.m_vkDevice h.m_vkCommandPool,
          ShutdownCall.destroyDevice h.m_vkDevice ] ∧
    (Shutdown m h).2.2.2.length = 4 ∧
    (Shutdown m h).2.2.2.getLast? = some (ShutdownCall.destroyDevice h.m_vkDevice) ∧
    (Shutdown m h).1 = true ∧
    (Shutdown m h).2.1.dev.mMainCmdBuffer = none ∧
    (Shutdown m h).2.1 = { m with dev := { m.dev with mMainCmdBuffer := none } } ∧
    (Shutdown m h).2.2.1 = h ∧
    (h.mDefaultAllocator.isSome = true → m.dev.mMainCmdBuffer.isSome = true →
      ∀ c ∈ (Shutdown m h).2.2.2, c.destroys = true) := by
  refine ⟨rfl, rfl, rfl, rfl, rfl, rfl, rfl, ?_⟩
  intro ha hc c hmem
  simp only [Shutdown, List.mem_cons, List.mem_singleton, List.not_mem_nil, or_false] at hmem
  rcases hmem with rfl | rfl | rfl | rfl
  · exact ha
  · exact hc
  · rfl
  · rfl

/-- Witness for C15: on an initialized device with a cached main command
buffer all four releases destroy an object. -/
theorem Shutdown_order_witness :
    exampleHandles.mDefaultAllocator.isSome = true ∧
    exampleCachedMachine.dev.mMainCmdBuffer.isSome = true ∧
    ∀ c ∈ (Shutdown exampleCachedMachine exampleHandles).2.2.2, c.destroys = true :=
  ⟨rfl, rfl, (Shutdown_order exampleCachedMachine exampleHandles).2.2.2.2.2.2.2 rfl rfl⟩

/-! ### Buffers and staging sizes -/

theorem CreateImageBuffer_runs (m : Machine) (params : ImageBufferCreateParams)
    (env : CreateImageAnswers) (st : MipLoopState) (f : Nat)
    (hdata : params.mPreinitData ≠ [])
    (hstage : stageMips params env.buffer_memory = some st)
    (hcmd : env.cmd.Succeeds)
    (hfence : env.cmd.executionFinished = some (ISyncPrimitive.VulkanCPUSyncPrimitive f)) :
    (CreateImageBuffer m params env).map (fun out => (out.result, out.staging))
      = some (env.image, some (staging_buffer_size params, st)) := by
  obtain ⟨hres, hlen⟩ := hcmd
  have hpos : ¬ params.mPreinitData.length ≤ 0 := by
    have := List.length_pos.mpr hdata
    omega
  match hv : env.cmd.value with
  | [] => simp [hv] at hlen
  | handle :: rest =>
    have hok : CALL_VK_API env.cmd.result = true := by simp [CALL_VK_API, hres]
    cases hw : CALL_VK_API env.waitResult with
    | false =>
      simp only [CreateImageBuffer, CreateBuffer, hpos, hstage, CreateCommandBuffer,
        allocateCommandBuffer, hok, hw, hv, hfence, ExecuteCommandBuffer, Wait, transform,
        dynamic_cast_CPU]
      simp
    | true =>
      simp only [CreateImageBuffer, CreateBuffer, hpos, hstage, CreateCommandBuffer,
        allocateCommandBuffer, hok, hw, hv, hfence, ExecuteCommandBuffer, Wait, transform,
        dynamic_cast_CPU]
      simp

theorem totalPayload_zero (params : ImageBufferCreateParams)
    (hzero : ∀ d ∈ params.mPreinitData, d.mSize = 0) : totalPayload params = 0 := by
  unfold totalPayload
  apply List.sum_eq_zero
  intro x hx
  obtain ⟨d, hd, rfl⟩ := List.mem_map.mp hx
  exact hzero d hd

theorem mipSize_zero (params : ImageBufferCreateParams)
    (hzero : ∀ d ∈ params.mPreinitData, d.mSize = 0) (i : Nat) : mipSize params i = 0 := by
  unfold mipSize
  cases h : params.mPreinitData[i]? with
  | none => rfl
  | some d => exact hzero d (List.getElem?_mem h)

/-- C16, counterexample: for the request of size zero that `CreateImageBuffer`
makes when both mips of `exampleZeroParams` are empty, `CreateBuffer` does not
return a null handle. -/
theorem CreateBuffer_zero_size_not_null :
    (stagingBufferRequest exampleZeroParams).mSize = 0 ∧
    ¬ (CreateBuffer (stagingBufferRequest exampleZeroParams) 2 = none) := by
  constructor
  · rfl
  · simp [CreateBuffer]

/-- C16, as amended: `CreateBuffer` makes no check of the request; for every
request, one of size zero included, it returns a non-null handle to the newly
constructed buffer.  When every mip payload of an image request has size
zero, the staging buffer `CreateImageBuffer` requests is a staging buffer of
size zero and a non-null handle is returned for it.  When in addition the
initial data is non-empty, the mip count is within the pre-init list, the
transfer command buffer is allocated and it has a CPU-kind completion
primitive, `CreateImageBuffer` goes on with the upload: it returns the image
after `BeginRecord`, the barrier to TransferDst, a `CopyBufferToImage` from
that staging buffer with an empty region list, the barrier to
ShaderReadOnly, `EndRecord`, the submit and the wait on the fence. -/
theorem CreateBuffer_never_null (request : BufferCreateInfo) (address : Nat)
    (params : ImageBufferCreateParams)
    (hzero : ∀ d ∈ params.mPreinitData, d.mSize = 0) :
    CreateBuffer request address = some address ∧
    stagingBufferRequest params = { mSize := 0, mUsage := BufferUsage.StagingBuffer } ∧
    CreateBuffer (stagingBufferRequest params) address = some address ∧
    (∀ (m : Machine) (env : CreateImageAnswers) (f : Nat),
      params.mPreinitData ≠ [] →
      params.mMipLevels ≤ params.mPreinitData.length →
      env.cmd.Succeeds →
      env.cmd.executionFinished = some (ISyncPrimitive.VulkanCPUSyncPrimitive f) →
      ∃ handle, env.cmd.value = [handle] ∧
      CreateBuffer (stagingBufferRequest params) env.staging_buffer
        = some env.staging_buffer ∧
      (CreateImageBuffer m params env).map
          (fun out => (out.result, out.staging.map (fun p => p.1), out.calls)) =
        some (env.image, some 0,
        [ UploadCall.BeginRecord m.heap.length,
          UploadCall.PipelineBarrier m.heap.length
            { mSrcStage := PipelineStage.Host
              mDstStage := PipelineStage.Transfer
              mImageMemoryBarriers :=
                [ { mImage := env.image
                    mSrcLayout := ImageLayout.Undefined
                    mDstLayout := ImageLayout.TransferDst
                    mSrcMemoryAccess := MemoryAccessFlags.Unknown
                    mDstMemoryAccess := MemoryAccessFlags.TransferWrite
                    mSubresRange := ⟨0, params.mMipLevels, 0, 1⟩ } ] },
          UploadCall.CopyBufferToImage m.heap.length
            { mBuffer := env.staging_buffer
              mImage := env.image
              mImageLayout := ImageLayout.TransferDst
              mRegions := [] },
          UploadCall.PipelineBarrier m.heap.length
            { mSrcStage := PipelineStage.Transfer
              mDstStage := PipelineStage.PixelShader
              mImageMemoryBarriers :=
                [ { mImage := env.image
                    mSrcLayout := ImageLayout.TransferDst
                    mDstLayout := ImageLayout.ShaderReadOnly
                    mSrcMemoryAccess := MemoryAccessFlags.TransferWrite
                    mDstMemoryAccess := MemoryAccessFlags.ShaderRead
                    mSubresRange := ⟨0, params.mMipLevels, 0, 1⟩ } ] },
          UploadCall.EndRecord m.heap.length,
          UploadCall.submit
            { submits := [ { commandBufferCount := 1
                             pCommandBuffers := Storage.live [handle]
                             waitSemaphoreCount := 0
                             pWaitSemaphores := Storage.null
                             pWaitDstStageMask := Storage.null
                             signalSemaphoreCount := 0
                             pSignalSemaphores := Storage.null } ]
              fence := some f },
          UploadCall.device (DeviceCall.waitForFences [f] true Wait.timeout) ]
        ++ (if CALL_VK_API env.waitResult = true then
              [UploadCall.device (DeviceCall.resetFences [f])]
            else []))) := by
  have htot := totalPayload_zero params hzero
  have hsz : staging_buffer_size params = 0 := by
    rw [staging_buffer_size_eq params (by omega), htot]
  refine ⟨rfl, ?_, rfl, ?_⟩
  · simp [stagingBufferRequest, hsz]
  intro m env f hdata hmips hcmd hfence
  obtain ⟨st, hst, _, hreg, _⟩ :=
    stageMips_staged params env.buffer_memory hmips (by omega)
  have hnil : st.copy_regions = [] := by
    rw [hreg]
    unfold mipRegions
    simp [mipSize_zero params hzero]
  obtain ⟨hres, hlen⟩ := hcmd
  match hv : env.cmd.value with
  | [] => simp [hv] at hlen
  | handle :: rest =>
    have hrest : rest = [] := by
      simp [hv] at hlen
      exact hlen
    subst hrest
    refine ⟨handle, rfl, rfl, ?_⟩
    have hout := CreateImageBuffer_outcome m params env st f handle hdata hst hres hv hfence
    cases hr : CreateImageBuffer m params env with
    | none => simp [hr] at hout
    | some out =>
      simp only [hr, Option.map_some', Option.some.injEq, Prod.mk.injEq] at hout
      obtain ⟨e1, e2, e3⟩ := hout
      simp only [Option.map_some', Option.some.injEq, Prod.mk.injEq]
      refine ⟨e1, ?_, ?_⟩
      · rw [e2]
        simp [hsz]
      · rw [e3, hnil]

/-- Witness for C16 as amended, on `exampleZeroParams`: the staging request
has size zero, `CreateBuffer` returns the handle 2 for it, and on a fresh
device the image at address 1 is returned after the upload. -/
theorem CreateBuffer_never_null_witness :
    (∀ d ∈ exampleZeroParams.mPreinitData, d.mSize = 0) ∧
    CreateBuffer (stagingBufferRequest exampleZeroParams) 2 = some 2 ∧
    (CreateImageBuffer exampleMachine exampleZeroParams exampleAnswers).map
      (fun out => out.result) = some 1 := by
  have hz : ∀ d ∈ exampleZeroParams.mPreinitData, d.mSize = 0 := by
    simp [exampleZeroParams]
  have h := CreateBuffer_never_null ⟨0, BufferUsage.StagingBuffer⟩ 2 exampleZeroParams hz
  refine ⟨hz, h.2.2.1, ?_⟩
  obtain ⟨handle, _, _, hc⟩ := h.2.2.2 exampleMachine exampleAnswers 5
    (by simp [exampleZeroParams]) (by simp [exampleZeroParams]) (by decide) rfl
  cases hr : CreateImageBuffer exampleMachine exampleZeroParams exampleAnswers with
  | none => simp [hr] at hc
  | some out =>
    simp only [hr, Option.map_some', Option.some.injEq, Prod.mk.injEq] at hc
    simp [hc.1, exampleAnswers]

theorem foldl_staging_mod (l : List ImageBufferInitData) :
    ∀ acc, acc < 2 ^ 32 →
      l.foldl (fun t x => (t + x.mSize) % 2 ^ 32) acc
        = (acc + (l.map (fun d => d.mSize)).sum) % 2 ^ 32 := by
  induction l with
  | nil =>
    intro acc h
    simp only [List.foldl_nil, List.map_nil, List.sum_nil, Nat.add_zero]
    exact (Nat.mod_eq_of_lt h).symm
  | cons d l ih =>
    intro acc _
    simp only [List.foldl_cons, List.map_cons, List.sum_cons]
    rw [ih _ (Nat.mod_lt _ (by norm_num)), Nat.add_mod, Nat.mod_mod, ← Nat.add_mod]
    congr 1
    omega

theorem staging_buffer_size_mod (params : ImageBufferCreateParams) :
    staging_buffer_size params = totalPayload params % 2 ^ 32 := by
  unfold staging_buffer_size totalPayload
  rw [foldl_staging_mod _ 0 (by norm_num)]
  simp

theorem staging_buffer_size_lt (params : ImageBufferCreateParams) :
    staging_buffer_size params < 2 ^ 32 := by
  rw [staging_buffer_size_mod]
  exact Nat.mod_lt _ (by norm_num)

theorem mipStep_offset (params : ImageBufferCreateParams) (size i : Nat)
    (st st1 : MipLoopState) (hsize : size < 2 ^ 32)
    (hstep : mipStep params size i st = some st1)
    (hoff : st.offset = mipOffset params i) (hle : st.offset ≤ size) :
    st1.offset = mipOffset params (i + 1) ∧ st1.offset ≤ size := by
  have hsucc := mipOffset_succ params i
  unfold mipStep at hstep
  cases hd : params.mPreinitData[i]? with
  | none => simp [hd] at hstep
  | some d =>
    have hms : mipSize params i = d.mSize := by simp [mipSize, hd]
    simp only [hd] at hstep
    by_cases hz : d.mSize ≤ 0
    · simp only [hz, if_true, Option.some.injEq] at hstep
      subst hstep
      constructor <;> omega
    · simp only [hz, if_false] at hstep
      by_cases hov : st.offset + d.mSize > size
      · simp [hov] at hstep
      · simp only [hov, if_false, Option.some.injEq] at hstep
        subst hstep
        have hm : (st.offset + d.mSize) % 2 ^ 32 = st.offset + d.mSize :=
          Nat.mod_eq_of_lt (by omega)
        constructor
        · show (st.offset + d.mSize) % 2 ^ 32 = mipOffset params (i + 1)
          omega
        · show (st.offset + d.mSize) % 2 ^ 32 ≤ size
          omega

theorem mipLoop_offset (params : ImageBufferCreateParams) (size : Nat)
    (hsize : size < 2 ^ 32) :
    ∀ (n i : Nat) (st st1 : MipLoopState),
      mipLoop params size n i st = some st1 →
      st.offset = mipOffset params i → st.offset ≤ size →
      st1.offset = mipOffset params (i + n) ∧ st1.offset ≤ size := by
  intro n
  induction n with
  | zero =>
    intro i st st1 h hoff hle
    simp only [mipLoop, Option.some.injEq] at h
    subst h
    exact ⟨hoff, hle⟩
  | succ n ih =>
    intro i st st1 h hoff hle
    unfold mipLoop at h
    cases hs : mipStep params size i st with
    | none => simp [hs] at h
    | some st2 =>
      simp only [hs] at h
      obtain ⟨h1, h2⟩ := mipStep_offset params size i st st2 hsize hs hoff hle
      have := ih (i + 1) st2 st1 h h1 h2
      have he : i + 1 + n = i + (n + 1) := by omega
      rw [he] at this
      exact this

theorem stageMips_offset (params : ImageBufferCreateParams) (buffer_memory : Nat → Nat)
    (st : MipLoopState) (h : stageMips params buffer_memory = some st) :
    st.offset = mipOffset params params.mMipLevels ∧
    st.offset ≤ staging_buffer_size params := by
  have := mipLoop_offset params _ (staging_buffer_size_lt params) params.mMipLevels 0 _ st h
    (by simp [mipOffset]) (Nat.zero_le _)
  rw [Nat.zero_add] at this
  exact this

theorem mipLoop_short (params : ImageBufferCreateParams) (size : Nat) :
    ∀ (n i : Nat) (st : MipLoopState), i ≤ params.mPreinitData.length →
      params.mPreinitData.length < i + n →
      mipLoop params size n i st = none := by
  intro n
  induction n with
  | zero =>
    intro i st h1 h2
    omega
  | succ n ih =>
    intro i st h1 h2
    unfold mipLoop
    cases hs : mipStep params size i st with
    | none => rfl
    | some st2 =>
      have hi : i < params.mPreinitData.length := by
        by_contra hcon
        have hnone : params.mPreinitData[i]? = none := List.getElem?_eq_none (by omega)
        simp [mipStep, hnone] at hs
      exact ih (i + 1) st2 (by omega) (by omega)

/-- C19, counterexample: for a request with one pre-init entry and two mip
levels the loop index 1 is below `mMipLevels`, but there is no entry 1 in the
pre-init list, and the mip loop is undefined. -/
theorem mip_loop_reads_out_of_range :
    exampleShortParams.mPreinitData ≠ [] ∧
    1 < exampleShortParams.mMipLevels ∧
    (exampleShortParams.mPreinitData[1]?).isSome = false ∧
    (stageMips exampleShortParams (fun _ => 0)).isSome = false := by
  refine ⟨?_, ?_, ?_, ?_⟩
  · simp [exampleShortParams]
  · decide
  · rfl
  · decide

/-- C19, as amended: for every request whose `mMipLevels` is at most the
number of pre-init entries, every index `i < mMipLevels` that the mip loop
reads is an index into the pre-init list, so an iteration is never undefined
because of the element access: the only iteration without a result is one
whose `memcpy` would pass the end of the staging buffer. -/
theorem mip_loop_reads_in_range (params : ImageBufferCreateParams)
    (hmips : params.mMipLevels ≤ params.mPreinitData.length)
    (i : Nat) (hi : i < params.mMipLevels) :
    (params.mPreinitData[i]?).isSome = true ∧
    ∀ (size : Nat) (st : MipLoopState), mipStep params size i st = none →
      ∃ d, params.mPreinitData[i]? = some d ∧ d.mSize ≠ 0 ∧ st.offset + d.mSize > size := by
  have hlt : i < params.mPreinitData.length := by omega
  have hd : params.mPreinitData[i]? = some params.mPreinitData[i] :=
    List.getElem?_eq_getElem hlt
  refine ⟨by simp [hd], ?_⟩
  intro size st hnone
  refine ⟨params.mPreinitData[i], hd, ?_, ?_⟩
  · intro hz
    simp [mipStep, hd, hz] at hnone
  · by_contra hov
    by_cases hz : params.mPreinitData[i].mSize ≤ 0
    · simp [mipStep, hd, hz] at hnone
    · simp [mipStep, hd, hz, hov] at hnone

/-- Witness for C19 as amended: every index of the three-mip request is
inside its pre-init list. -/
theorem mip_loop_reads_in_range_witness :
    exampleParams.mMipLevels ≤ exampleParams.mPreinitData.length ∧
    (2 : Nat) < exampleParams.mMipLevels ∧
    (exampleParams.mPreinitData[2]?).isSome = true := by
  have h1 : exampleParams.mMipLevels ≤ exampleParams.mPreinitData.length := by
    simp [exampleParams]
  have h2 : (2 : Nat) < exampleParams.mMipLevels := by decide
  exact ⟨h1, h2, (mip_loop_reads_in_range exampleParams h1 2 h2).1⟩

theorem stagingWrites_staged (params : ImageBufferCreateParams) (st : MipLoopState)
    (h : st.copy_regions = mipRegions params params.mMipLevels) :
    stagingWrites params st
      = ((List.range params.mMipLevels).filter (fun i => decide (mipSize params i ≠ 0))).map
          (fun i => (mipOffset params i, mipSize params i)) := by
  unfold stagingWrites
  rw [h]
  unfold mipRegions
  rw [List.map_map]
  rfl

/-- C20, counterexample: the three pre-init entries of
`exampleWrapPrefixParams` add up to `2 ^ 32 + 1`, so the 32-bit sum wraps and
the requested staging size is 1; the image has one mip level, the loop writes
the single byte range `[0, 1)`, and the requested size is not smaller than
the one byte written. -/
theorem wrapped_size_not_smaller :
    exampleWrapPrefixParams.mPreinitData ≠ [] ∧
    exampleWrapPrefixParams.mMipLevels ≤ exampleWrapPrefixParams.mPreinitData.length ∧
    2 ^ 32 ≤ totalPayload exampleWrapPrefixParams ∧
    staging_buffer_size exampleWrapPrefixParams = 1 ∧
    (stageMips exampleWrapPrefixParams (fun _ => 0)).map
        (fun st => (st.offset, stagingWrites exampleWrapPrefixParams st))
      = some (1, [(0, 1)]) ∧
    ¬ (staging_buffer_size exampleWrapPrefixParams
        < mipOffset exampleWrapPrefixParams exampleWrapPrefixParams.mMipLevels) := by
  refine ⟨?_, ?_, ?_, ?_, ?_, ?_⟩
  · simp [exampleWrapPrefixParams]
  · decide
  · decide
  · decide
  · decide
  · decide

/-- C20, as amended: for every request with `mMipLevels` at most the number
of pre-init entries, when the sum of all payload sizes does not exceed
`2 ^ 32 - 1` the mip loop completes, every byte range it writes lies within
the requested staging size, and the ranges are laid out in increasing mip
order, each ending before the next begins, so they are pairwise disjoint.
When the 32-bit sum wraps and `mMipLevels` equals the number of pre-init
entries, the requested staging size is smaller than the number of bytes the
loop has to write, and the loop runs past the end of the staging buffer. -/
theorem staging_writes_in_bounds (params : ImageBufferCreateParams)
    (buffer_memory : Nat → Nat)
    (hmips : params.mMipLevels ≤ params.mPreinitData.length) :
    (totalPayload params ≤ 2 ^ 32 - 1 →
      ∃ st, stageMips params buffer_memory = some st ∧
        (∀ w ∈ stagingWrites params st, w.1 + w.2 ≤ staging_buffer_size params) ∧
        (stagingWrites params st).Pairwise (fun a b => a.1 + a.2 ≤ b.1) ∧
        (st.copy_regions.map (fun r => r.mTo.mSubresource.mipLevel)).Pairwise
          (fun a b => a < b)) ∧
    (2 ^ 32 ≤ totalPayload params → params.mMipLevels = params.mPreinitData.length →
      staging_buffer_size params < mipOffset params params.mMipLevels ∧
      stageMips params buffer_memory = none) := by
  constructor
  · intro htotal
    have ht : totalPayload params < 2 ^ 32 := by omega
    obtain ⟨st, h1, _, hreg, _⟩ := stageMips_staged params buffer_memory hmips ht
    have hw := stagingWrites_staged params st hreg
    refine ⟨st, h1, ?_, ?_, ?_⟩
    · intro w hwm
      rw [hw] at hwm
      obtain ⟨i, _, rfl⟩ := List.mem_map.mp hwm
      have h2 := mipOffset_succ params i
      have h3 := mipOffset_le_total params (i + 1)
      rw [staging_buffer_size_eq params ht]
      show mipOffset params i + mipSize params i ≤ totalPayload params
      omega
    · rw [hw]
      apply List.Pairwise.map _ _
        ((List.pairwise_lt_range params.mMipLevels).filter _)
      intro a b hab
      have h2 := mipOffset_succ params a
      have h3 := mipOffset_mono params (a + 1) (b - (a + 1))
      have h4 : a + 1 + (b - (a + 1)) = b := by omega
      rw [h4] at h3
      show mipOffset params a + mipSize params a ≤ mipOffset params b
      omega
    · rw [hreg]
      unfold mipRegions
      rw [List.map_map]
      apply List.Pairwise.map _ _
        ((List.pairwise_lt_range params.mMipLevels).filter _)
      intro a b hab
      exact hab
  · intro hwrap hm
    have hoff : mipOffset params params.mMipLevels = totalPayload params := by
      rw [hm]
      simp [mipOffset, totalPayload]
    have hlt := staging_buffer_size_lt params
    refine ⟨by omega, ?_⟩
    cases hs : stageMips params buffer_memory with
    | none => rfl
    | some st =>
      have := stageMips_offset params buffer_memory st hs
      omega

/-- Witness for C20 as amended: the request with mips of 4, 0 and 2 bytes
satisfies the first part, the request with mips of `2 ^ 32 - 1` and 2 bytes
the second. -/
theorem staging_writes_in_bounds_witness :
    (∃ st, stageMips exampleParams (fun _ => 0) = some st ∧
      ∀ w ∈ stagingWrites exampleParams st, w.1 + w.2 ≤ staging_buffer_size exampleParams) ∧
    stageMips exampleWrapParams (fun _ => 0) = none := by
  constructor
  · obtain ⟨st, h1, h2, _⟩ :=
      (staging_writes_in_bounds exampleParams (fun _ => 0) (by simp [exampleParams])).1
        (by simp [exampleParams, totalPayload])
    exact ⟨st, h1, h2⟩
  · exact ((staging_writes_in_bounds exampleWrapParams (fun _ => 0)
      (by simp [exampleWrapParams])).2 (by decide) (by simp [exampleWrapParams])).2

/-! ### Validation of layers and extensions -/

theorem set_insert_mem {α : Type} [LinearOrder α] (x z : α) (l : List α) :
    z ∈ set_insert x l ↔ z = x ∨ z ∈ l := by
  induction l with
  | nil => simp [set_insert]
  | cons y ys ih =>
    unfold set_insert
    by_cases h1 : x < y
    · simp [h1]
    · by_cases h2 : y < x
      · simp only [h1, h2, if_false, if_true, List.mem_cons, ih]
        tauto
      · have hxy : x = y := le_antisymm (not_lt.mp h2) (not_lt.mp h1)
        simp only [h1, h2, if_false, List.mem_cons]
        subst hxy
        tauto

theorem set_insert_sorted {α : Type} [LinearOrder α] (x : α) (l : List α)
    (h : l.Pairwise (fun a b => a < b)) :
    (set_insert x l).Pairwise (fun a b => a < b) := by
  induction l with
  | nil => simp [set_insert]
  | cons y ys ih =>
    unfold set_insert
    obtain ⟨hy, hys⟩ := List.pairwise_cons.mp h
    by_cases h1 : x < y
    · simp only [h1, if_true]
      refine List.pairwise_cons.mpr ⟨?_, h⟩
      intro z hz
      rcases List.mem_cons.mp hz with rfl | hz
      · exact h1
      · exact lt_trans h1 (hy z hz)
    · by_cases h2 : y < x
      · simp only [h1, h2, if_false, if_true]
        refine List.pairwise_cons.mpr ⟨?_, ih hys⟩
        intro z hz
        rcases (set_insert_mem x z ys).mp hz with rfl | hz
        · exact h2
        · exact hy z hz
      · simp only [h1, h2, if_false]
        exact h

theorem foldl_set_insert {α : Type} [LinearOrder α] (names : List α) :
    ∀ set : List α, set.Pairwise (fun a b => a < b) →
      (names.foldl (fun set l => set_insert l set) set).Pairwise (fun a b => a < b) ∧
      ∀ z, z ∈ names.foldl (fun set l => set_insert l set) set ↔ z ∈ set ∨ z ∈ names := by
  induction names with
  | nil =>
    intro set h
    simp [h]
  | cons n names ih =>
    intro set h
    obtain ⟨h1, h2⟩ := ih (set_insert n set) (set_insert_sorted n set h)
    refine ⟨h1, ?_⟩
    intro z
    simp only [List.foldl_cons, h2, set_insert_mem, List.mem_cons]
    tauto

theorem to_set_sorted {α : Type} [LinearOrder α] (names : List α) :
    (to_set names).Pairwise (fun a b => a < b) :=
  (foldl_set_insert names [] List.Pairwise.nil).1

theorem to_set_mem {α : Type} [LinearOrder α] (names : List α) (z : α) :
    z ∈ to_set names ↔ z ∈ names := by
  have := (foldl_set_insert names [] List.Pairwise.nil).2 z
  simpa [to_set] using this

theorem set_difference_mem {α : Type} [LinearOrder α] (z : α) :
    ∀ l1 l2 : List α, l1.Pairwise (fun a b => a < b) → l2.Pairwise (fun a b => a < b) →
      (z ∈ set_difference l1 l2 ↔ z ∈ l1 ∧ z ∉ l2) := by
  intro l1 l2
  induction l1, l2 using set_difference.induct with
  | case1 l2 =>
    intro _ _
    simp [set_difference]
  | case2 a as =>
    intro _ _
    simp [set_difference]
  | case3 a as b bs hab ih =>
    intro h1 h2
    obtain ⟨ha, has⟩ := List.pairwise_cons.mp h1
    obtain ⟨hb, _⟩ := List.pairwise_cons.mp h2
    rw [set_difference]
    simp only [hab, if_true, List.mem_cons, ih has h2]
    constructor
    · rintro (rfl | ⟨hz, hn⟩)
      · refine ⟨Or.inl rfl, ?_⟩
        rintro (rfl | hzb)
        · exact lt_irrefl _ hab
        · exact lt_irrefl _ (lt_trans hab (hb _ hzb))
      · exact ⟨Or.inr hz, hn⟩
    · rintro ⟨rfl | hz, hn⟩
      · exact Or.inl rfl
      · exact Or.inr ⟨hz, hn⟩
  | case4 a as b bs hab hba ih =>
    intro h1 h2
    obtain ⟨ha, _⟩ := List.pairwise_cons.mp h1
    obtain ⟨_, hbs⟩ := List.pairwise_cons.mp h2
    rw [set_difference]
    simp only [hab, hba, if_false, if_true, ih h1 hbs, List.mem_cons]
    constructor
    · rintro ⟨hz, hn⟩
      refine ⟨hz, ?_⟩
      rintro (rfl | hzb)
      · rcases hz with rfl | hz
        · exact lt_irrefl _ hba
        · exact lt_irrefl _ (lt_trans hba (ha _ hz))
      · exact hn hzb
    · rintro ⟨hz, hn⟩
      exact ⟨hz, fun hzb => hn (Or.inr hzb)⟩
  | case5 a as b bs hab hba ih =>
    intro h1 h2
    obtain ⟨ha, has⟩ := List.pairwise_cons.mp h1
    obtain ⟨_, hbs⟩ := List.pairwise_cons.mp h2
    have heq : a = b := le_antisymm (not_lt.mp hba) (not_lt.mp hab)
    subst heq
    rw [set_difference]
    simp only [hab, if_false, ih has hbs, List.mem_cons]
    constructor
    · rintro ⟨hz, hn⟩
      refine ⟨Or.inr hz, ?_⟩
      rintro (rfl | hzb)
      · exact lt_irrefl _ (ha _ hz)
      · exact hn hzb
    · rintro ⟨rfl | hz, hn⟩
      · exact absurd (Or.inl rfl) hn
      · exact ⟨hz, fun hzb => hn (Or.inr hzb)⟩

theorem set_difference_sublist {α : Type} [LinearOrder α] :
    ∀ l1 l2 : List α, (set_difference l1 l2).Sublist l1 := by
  intro l1 l2
  induction l1, l2 using set_difference.induct with
  | case1 l2 => simp [set_difference]
  | case2 a as => simp [set_difference]
  | case3 a as b bs hab ih =>
    rw [set_difference]
    simp only [hab, if_true]
    exact ih.cons₂ a
  | case4 a as b bs hab hba ih =>
    rw [set_difference]
    simp only [hab, hba, if_false, if_true]
    exact ih
  | case5 a as b bs hab hba ih =>
    rw [set_difference]
    simp only [hab, hba, if_false]
    exact ih.cons a

theorem sorted_nodup {α : Type} [LinearOrder α] (l : List α)
    (h : l.Pairwise (fun a b => a < b)) : l.Nodup :=
  h.imp (fun hab => ne_of_lt hab)

theorem reportedNames_append (l1 l2 : List LogCall) :
    reportedNames (l1 ++ l2) = reportedNames l1 ++ reportedNames l2 := by
  induction l1 with
  | nil => rfl
  | cons c l1 ih =>
    cases c with
    | Log msg => simpa [reportedNames] using ih
    | Error msg => simpa [reportedNames] using ih
    | ErrorFmt fmt args => simp [reportedNames, ih]

theorem reportedNames_layers (fmt : String) (names : List String) :
    reportedNames (names.map (fun l => LogCall.ErrorFmt fmt [LogArg.name l])) = names := by
  induction names with
  | nil => rfl
  | cons n names ih => simp [reportedNames, ih]

theorem reportedNames_extensions (fmt : String) (names : List String) :
    reportedNames (names.map (fun ext =>
      LogCall.ErrorFmt fmt [LogArg.level LogLevel.Info, LogArg.name ext])) = names := by
  induction names with
  | nil => rfl
  | cons n names ih => simp [reportedNames, ih]

theorem unsupported_layers_mem (required supported : List String) (z : String) :
    z ∈ to_set (set_difference (to_set required) (to_set supported))
      ↔ z ∈ required ∧ z ∉ supported := by
  rw [to_set_mem, set_difference_mem z _ _ (to_set_sorted _) (to_set_sorted _), to_set_mem,
    to_set_mem]

theorem unsupported_extensions_mem (required supported : List String) (z : String) :
    z ∈ set_difference (to_set required) (to_set supported)
      ↔ z ∈ required ∧ z ∉ supported := by
  rw [set_difference_mem z _ _ (to_set_sorted _) (to_set_sorted _), to_set_mem, to_set_mem]

theorem isEmpty_false_iff_exists {α : Type} (l : List α) :
    (!l.isEmpty) = true ↔ ∃ z, z ∈ l := by
  cases l with
  | nil => simp
  | cons a l => simp

theorem unsupported_layers_isEmpty (required supported : List String) :
    (!(to_set (set_difference (to_set required) (to_set supported))).isEmpty)
      = decide (∃ l ∈ required, l ∉ supported) := by
  by_cases h : ∃ l ∈ required, l ∉ supported
  · rw [decide_eq_true h, isEmpty_false_iff_exists]
    obtain ⟨l, h1, h2⟩ := h
    exact ⟨l, (unsupported_layers_mem _ _ l).mpr ⟨h1, h2⟩⟩
  · rw [decide_eq_false h]
    apply Bool.eq_false_iff.mpr
    intro hc
    rw [isEmpty_false_iff_exists] at hc
    obtain ⟨z, hz⟩ := hc
    obtain ⟨h1, h2⟩ := (unsupported_layers_mem _ _ z).mp hz
    exact h ⟨z, h1, h2⟩

theorem unsupported_extensions_isEmpty (required supported : List String) :
    (!(set_difference (to_set required) (to_set supported)).isEmpty)
      = decide (∃ e ∈ required, e ∉ supported) := by
  by_cases h : ∃ e ∈ required, e ∉ supported
  · rw [decide_eq_true h, isEmpty_false_iff_exists]
    obtain ⟨e, h1, h2⟩ := h
    exact ⟨e, (unsupported_extensions_mem _ _ e).mpr ⟨h1, h2⟩⟩
  · rw [decide_eq_false h]
    apply Bool.eq_false_iff.mpr
    intro hc
    rw [isEmpty_false_iff_exists] at hc
    obtain ⟨z, hz⟩ := hc
    obtain ⟨h1, h2⟩ := (unsupported_extensions_mem _ _ z).mp hz
    exact h ⟨z, h1, h2⟩

theorem validateInstance_missing_layer (m_aLayers m_aExtensions : List String)
    (env : InstanceAnswers)
    (h : ∃ l ∈ m_aLayers, l ∉ env.layer_properties) :
    (validateInstance m_aLayers m_aExtensions env).createInstanceCalled = false ∧
    (validateInstance m_aLayers m_aExtensions env).m_aAdapters = [] ∧
    reportedNames (validateInstance m_aLayers m_aExtensions env).log
      = to_set (set_difference (to_set m_aLayers) (to_set env.layer_properties)) := by
  have hv : validateInstance m_aLayers m_aExtensions env =
      { log := [LogCall.Log "VulkanDeviceState initialization"] ++
          [LogCall.Error ("VulkanDeviceState initialization failed, required " ++
            "instance layers are unsupported:")] ++
          (to_set (set_difference (to_set m_aLayers) (to_set env.layer_properties))).map
            (fun l => LogCall.ErrorFmt "\tinstance layer %s is unsupported!" [LogArg.name l])
        createInstanceCalled := false
        m_aAdapters := [] } := by
    unfold validateInstance
    simp only [unsupported_layers_isEmpty, decide_eq_true h, if_true]
  rw [hv]
  refine ⟨rfl, rfl, ?_⟩
  rw [reportedNames_append, reportedNames_append, reportedNames_layers]
  simp [reportedNames]

theorem validateInstance_missing_extension (m_aLayers m_aExtensions : List String)
    (env : InstanceAnswers)
    (hl : ¬ ∃ l ∈ m_aLayers, l ∉ env.layer_properties)
    (h : ∃ e ∈ m_aExtensions, e ∉ env.extension_properties) :
    (validateInstance m_aLayers m_aExtensions env).createInstanceCalled = false ∧
    (validateInstance m_aLayers m_aExtensions env).m_aAdapters = [] ∧
    reportedNames (validateInstance m_aLayers m_aExtensions env).log
      = set_difference (to_set m_aExtensions) (to_set env.extension_properties) := by
  have hv : validateInstance m_aLayers m_aExtensions env =
      { log := [LogCall.Log "VulkanDeviceState initialization"] ++
          [LogCall.Error ("VulkanDeviceState initialization failed, required " ++
            "instance extensions are unsupported:")] ++
          (set_difference (to_set m_aExtensions) (to_set env.extension_properties)).map
            (fun ext => LogCall.ErrorFmt "\textension %s is unsupported!"
              [LogArg.level LogLevel.Info, LogArg.name ext])
        createInstanceCalled := false
        m_aAdapters := [] } := by
    unfold validateInstance
    simp only [unsupported_layers_isEmpty, unsupported_extensions_isEmpty,
      decide_eq_false hl, decide_eq_true h, if_true, Bool.false_eq_true, if_false]
  rw [hv]
  refine ⟨rfl, rfl, ?_⟩
  rw [reportedNames_append, reportedNames_append, reportedNames_extensions]
  simp [reportedNames]

theorem validateInstance_supported (m_aLayers m_aExtensions : List String)
    (env : InstanceAnswers)
    (hl : ¬ ∃ l ∈ m_aLayers, l ∉ env.layer_properties)
    (he : ¬ ∃ e ∈ m_aExtensions, e ∉ env.extension_properties) :
    (validateInstance m_aLayers m_aExtensions env).createInstanceCalled = true ∧
    reportedNames (validateInstance m_aLayers m_aExtensions env).log = [] ∧
    (CALL_VK_API env.createInstance = true → CALL_VK_API env.adapter_res.1 = true →
      (validateInstance m_aLayers m_aExtensions env).m_aAdapters = env.adapter_res.2) := by
  unfold validateInstance
  simp only [unsupported_layers_isEmpty, unsupported_extensions_isEmpty,
    decide_eq_false hl, decide_eq_false he, Bool.false_eq_true, if_false]
  cases h1 : CALL_VK_API env.createInstance with
  | false =>
    refine ⟨rfl, rfl, ?_⟩
    intro hc
    exact absurd hc (by decide)
  | true =>
    cases h2 : CALL_VK_API env.adapter_res.1 with
    | false =>
      refine ⟨rfl, rfl, ?_⟩
      intro _ hc
      exact absurd hc (by decide)
    | true =>
      exact ⟨rfl, rfl, fun _ _ => rfl⟩

/-- The stop condition of the validation and the names among the arguments of
the formatted error calls, whatever their position: the constructor stops
before `vk::createInstance` if and only if some required layer or some
required extension is not among the supported ones, and the adapter list is
then empty; the names among the arguments are the required layers that are
not supported, or, when no layer is missing, the required extensions that are
not supported, each once. -/
theorem instance_validation (m_aLayers m_aExtensions : List String) (env : InstanceAnswers) :
    ((validateInstance m_aLayers m_aExtensions env).createInstanceCalled = false ↔
      (∃ l ∈ m_aLayers, l ∉ env.layer_properties) ∨
      (∃ e ∈ m_aExtensions, e ∉ env.extension_properties)) ∧
    ((validateInstance m_aLayers m_aExtensions env).createInstanceCalled = false →
      (validateInstance m_aLayers m_aExtensions env).m_aAdapters = []) ∧
    ((∃ l ∈ m_aLayers, l ∉ env.layer_properties) →
      ∀ n, n ∈ reportedNames (validateInstance m_aLayers m_aExtensions env).log ↔
        n ∈ m_aLayers ∧ n ∉ env.layer_properties) ∧
    ((¬ ∃ l ∈ m_aLayers, l ∉ env.layer_properties) →
      ∀ n, n ∈ reportedNames (validateInstance m_aLayers m_aExtensions env).log ↔
        n ∈ m_aExtensions ∧ n ∉ env.extension_properties) ∧
    (reportedNames (validateInstance m_aLayers m_aExtensions env).log).Nodup := by
  by_cases hl : ∃ l ∈ m_aLayers, l ∉ env.layer_properties
  · obtain ⟨h1, h2, h3⟩ := validateInstance_missing_layer m_aLayers m_aExtensions env hl
    refine ⟨⟨fun _ => Or.inl hl, fun _ => h1⟩, fun _ => h2, ?_, fun hn => absurd hl hn, ?_⟩
    · intro _ n
      rw [h3]
      exact unsupported_layers_mem _ _ n
    · rw [h3]
      exact sorted_nodup _ (to_set_sorted _)
  · by_cases he : ∃ e ∈ m_aExtensions, e ∉ env.extension_properties
    · obtain ⟨h1, h2, h3⟩ :=
        validateInstance_missing_extension m_aLayers m_aExtensions env hl he
      refine ⟨⟨fun _ => Or.inr he, fun _ => h1⟩, fun _ => h2, fun hc => absurd hc hl, ?_, ?_⟩
      · intro _ n
        rw [h3]
        exact unsupported_extensions_mem _ _ n
      · rw [h3]
        exact sorted_nodup _
          ((to_set_sorted m_aExtensions).sublist (set_difference_sublist _ _))
    · obtain ⟨h1, h2, _⟩ := validateInstance_supported m_aLayers m_aExtensions env hl he
      refine ⟨⟨?_, ?_⟩, ?_, fun hc => absurd hc hl, ?_, ?_⟩
      · intro hc
        rw [h1] at hc
        exact absurd hc (by decide)
      · rintro (hc | hc)
        · exact absurd hc hl
        · exact absurd hc he
      · intro hc
        rw [h1] at hc
        exact absurd hc (by decide)
      · intro _ n
        rw [h2]
        constructor
        · intro hn
          simp at hn
        · rintro ⟨hn1, hn2⟩
          exact absurd ⟨n, hn1, hn2⟩ he
      · rw [h2]
        exact List.nodup_nil

/-- With a required extension that the API does not report, construction
stops before the instance is created and that name is among the arguments of
the formatted error calls; a release build on an API that supports its three
extensions goes on to create the instance. -/
theorem instance_validation_witness :
    (validateInstance [] (requiredExtensions false ++ ["VK_FAKE_extension"])
        exampleInstance).createInstanceCalled = false ∧
    "VK_FAKE_extension" ∈ reportedNames (validateInstance []
        (requiredExtensions false ++ ["VK_FAKE_extension"]) exampleInstance).log ∧
    ¬ ((VulkanDeviceState.construct false exampleInstance).createInstanceCalled = false) := by
  have hin : "VK_FAKE_extension" ∈ requiredExtensions false ++ ["VK_FAKE_extension"] := by
    simp
  have hout : "VK_FAKE_extension" ∉ exampleInstance.extension_properties := by
    simp [exampleInstance, requiredExtensions]
  have hl : ¬ ∃ l ∈ ([] : List String), l ∉ exampleInstance.layer_properties := by
    simp
  refine ⟨?_, ?_, ?_⟩
  · exact (instance_validation [] (requiredExtensions false ++ ["VK_FAKE_extension"])
      exampleInstance).1.mpr (Or.inr ⟨_, hin, hout⟩)
  · exact ((instance_validation [] (requiredExtensions false ++ ["VK_FAKE_extension"])
      exampleInstance).2.2.2.1 hl "VK_FAKE_extension").mpr ⟨hin, hout⟩
  · intro hc
    have h := (instance_validation (requiredLayers false) (requiredExtensions false)
      exampleInstance).1.mp hc
    simp [requiredLayers, requiredExtensions, exampleInstance] at h

theorem validateInstance_layer_calls (m_aLayers m_aExtensions : List String)
    (env : InstanceAnswers)
    (h : ∃ l ∈ m_aLayers, l ∉ env.layer_properties) :
    validateInstance m_aLayers m_aExtensions env =
      { log := [LogCall.Log "VulkanDeviceState initialization"] ++
          [LogCall.Error ("VulkanDeviceState initialization failed, required " ++
            "instance layers are unsupported:")] ++
          (to_set (set_difference (to_set m_aLayers) (to_set env.layer_properties))).map
            (fun l => LogCall.ErrorFmt "\tinstance layer %s is unsupported!" [LogArg.name l])
        createInstanceCalled := false
        m_aAdapters := [] } := by
  unfold validateInstance
  simp only [unsupported_layers_isEmpty, decide_eq_true h, if_true]

theorem validateInstance_extension_calls (m_aLayers m_aExtensions : List String)
    (env : InstanceAnswers)
    (hl : ¬ ∃ l ∈ m_aLayers, l ∉ env.layer_properties)
    (h : ∃ e ∈ m_aExtensions, e ∉ env.extension_properties) :
    validateInstance m_aLayers m_aExtensions env =
      { log := [LogCall.Log "VulkanDeviceState initialization"] ++
          [LogCall.Error ("VulkanDeviceState initialization failed, required " ++
            "instance extensions are unsupported:")] ++
          (set_difference (to_set m_aExtensions) (to_set env.extension_properties)).map
            (fun ext => LogCall.ErrorFmt "\textension %s is unsupported!"
              [LogArg.level LogLevel.Info, LogArg.name ext])
        createInstanceCalled := false
        m_aAdapters := [] } := by
  unfold validateInstance
  simp only [unsupported_layers_isEmpty, unsupported_extensions_isEmpty,
    decide_eq_false hl, decide_eq_true h, if_true, Bool.false_eq_true, if_false]

theorem nodup_eq_singleton {α : Type} (a : α) :
    ∀ l : List α, l.Nodup → (∀ z, z ∈ l ↔ z = a) → l = [a] := by
  intro l hnd hmem
  cases l with
  | nil => exact absurd ((hmem a).mpr rfl) (List.not_mem_nil a)
  | cons x xs =>
    have hx : x = a := (hmem x).mp (List.mem_cons_self x xs)
    subst hx
    cases xs with
    | nil => rfl
    | cons y ys =>
      have hy : y = x := (hmem y).mp (List.mem_cons_of_mem x (List.mem_cons_self y ys))
      subst hy
      exact absurd (List.mem_cons_self y ys) (List.nodup_cons.mp hnd).1

/-- C13 (the code, which departs from the claim in the log line of a missing
extension): for all required layers and extensions and all supported ones the
API reports, the constructor stops before `vk::createInstance` if and only if
some required layer or some required extension is not among the supported
ones, and the adapter list is then empty.  If a layer is missing, the log is
the start line, one error line and one formatted call per missing layer, each
missing layer once, and every formatted call passes the layer name directly
after its format `"\tinstance layer %s is unsupported!"`.  If no layer but an
extension is missing, the log is the start line, one error line and one
formatted call per missing extension, each missing extension once, but every
formatted call passes `LogLevel::Info` directly after its format
`"\textension %s is unsupported!"` and the extension name only after that: no
call of the log passes a name in the position of the one `%s`. -/
theorem validateInstance_log_arguments (m_aLayers m_aExtensions : List String)
    (env : InstanceAnswers) :
    ((validateInstance m_aLayers m_aExtensions env).createInstanceCalled = false ↔
      (∃ l ∈ m_aLayers, l ∉ env.layer_properties) ∨
      (∃ e ∈ m_aExtensions, e ∉ env.extension_properties)) ∧
    ((validateInstance m_aLayers m_aExtensions env).createInstanceCalled = false →
      (validateInstance m_aLayers m_aExtensions env).m_aAdapters = []) ∧
    ((∃ l ∈ m_aLayers, l ∉ env.layer_properties) →
      ∃ names : List String, names ≠ [] ∧ names.Nodup ∧
        (∀ n, n ∈ names ↔ n ∈ m_aLayers ∧ n ∉ env.layer_properties) ∧
        (validateInstance m_aLayers m_aExtensions env).log =
          [LogCall.Log "VulkanDeviceState initialization",
           LogCall.Error ("VulkanDeviceState initialization failed, required " ++
             "instance layers are unsupported:")] ++
          names.map (fun l =>
            LogCall.ErrorFmt "\tinstance layer %s is unsupported!" [LogArg.name l]) ∧
        (∀ c ∈ (validateInstance m_aLayers m_aExtensions env).log,
          ∀ fmt args, c = LogCall.ErrorFmt fmt args →
            ∃ l ∈ names, c.firstArgument = some (LogArg.name l))) ∧
    ((¬ ∃ l ∈ m_aLayers, l ∉ env.layer_properties) →
      (∃ e ∈ m_aExtensions, e ∉ env.extension_properties) →
      ∃ names : List String, names ≠ [] ∧ names.Nodup ∧
        (∀ n, n ∈ names ↔ n ∈ m_aExtensions ∧ n ∉ env.extension_properties) ∧
        (validateInstance m_aLayers m_aExtensions env).log =
          [LogCall.Log "VulkanDeviceState initialization",
           LogCall.Error ("VulkanDeviceState initialization failed, required " ++
             "instance extensions are unsupported:")] ++
          names.map (fun ext =>
            LogCall.ErrorFmt "\textension %s is unsupported!"
              [LogArg.level LogLevel.Info, LogArg.name ext]) ∧
        (∀ c ∈ (validateInstance m_aLayers m_aExtensions env).log,
          ∀ fmt args, c = LogCall.ErrorFmt fmt args →
            c.firstArgument = some (LogArg.level LogLevel.Info)) ∧
        (∀ c ∈ (validateInstance m_aLayers m_aExtensions env).log,
          ∀ n, c.firstArgument ≠ some (LogArg.name n))) := by
  by_cases hl : ∃ l ∈ m_aLayers, l ∉ env.layer_properties
  · have hv := validateInstance_layer_calls m_aLayers m_aExtensions env hl
    refine ⟨⟨fun _ => Or.inl hl, fun _ => by rw [hv]⟩, fun _ => by rw [hv], ?_,
      fun hn => absurd hl hn⟩
    intro _
    have hne : to_set (set_difference (to_set m_aLayers) (to_set env.layer_properties)) ≠ [] := by
      obtain ⟨l, h1, h2⟩ := hl
      intro hc
      have hm := (unsupported_layers_mem m_aLayers env.layer_properties l).mpr ⟨h1, h2⟩
      rw [hc] at hm
      exact List.not_mem_nil l hm
    refine ⟨_, hne, sorted_nodup _ (to_set_sorted _), unsupported_layers_mem _ _, ?_, ?_⟩
    · rw [hv]
      rfl
    · intro c hc fmt args hfa
      rw [hv] at hc
      simp only [List.mem_append, List.mem_singleton, List.mem_map] at hc
      rcases hc with (hc | hc) | ⟨l, hlm, hc⟩
      · rw [hc] at hfa
        exact LogCall.noConfusion hfa
      · rw [hc] at hfa
        exact LogCall.noConfusion hfa
      · exact ⟨l, hlm, by rw [← hc]; rfl⟩
  · by_cases he : ∃ e ∈ m_aExtensions, e ∉ env.extension_properties
    · have hv := validateInstance_extension_calls m_aLayers m_aExtensions env hl he
      refine ⟨⟨fun _ => Or.inr he, fun _ => by rw [hv]⟩, fun _ => by rw [hv],
        fun hc => absurd hc hl, ?_⟩
      intro _ _
      have hne : set_difference (to_set m_aExtensions) (to_set env.extension_properties)
          ≠ [] := by
        obtain ⟨e, h1, h2⟩ := he
        intro hc
        have hm := (unsupported_extensions_mem m_aExtensions env.extension_properties e).mpr
          ⟨h1, h2⟩
        rw [hc] at hm
        exact List.not_mem_nil e hm
      refine ⟨_, hne,
        sorted_nodup _ ((to_set_sorted m_aExtensions).sublist (set_difference_sublist _ _)),
        unsupported_extensions_mem _ _, ?_, ?_, ?_⟩
      · rw [hv]
        rfl
      · intro c hc fmt args hfa
        rw [hv] at hc
        simp only [List.mem_append, List.mem_singleton, List.mem_map] at hc
        rcases hc with (hc | hc) | ⟨e, _, hc⟩
        · rw [hc] at hfa
          exact LogCall.noConfusion hfa
        · rw [hc] at hfa
          exact LogCall.noConfusion hfa
        · rw [← hc]
          rfl
      · intro c hc n
        rw [hv] at hc
        simp only [List.mem_append, List.mem_singleton, List.mem_map] at hc
        rcases hc with (hc | hc) | ⟨e, _, hc⟩
        · rw [hc]
          simp [LogCall.firstArgument]
        · rw [hc]
          simp [LogCall.firstArgument]
        · rw [← hc]
          simp [LogCall.firstArgument]
    · obtain ⟨h1, _, _⟩ := validateInstance_supported m_aLayers m_aExtensions env hl he
      refine ⟨⟨?_, ?_⟩, ?_, fun hc => absurd hc hl, fun _ hc => absurd hc he⟩
      · intro hc
        rw [h1] at hc
        exact absurd hc (by decide)
      · rintro (hc | hc)
        · exact absurd hc hl
        · exact absurd hc he
      · intro hc
        rw [h1] at hc
        exact absurd hc (by decide)

/-- Witness for C13: a release build on an API that does not report
`VK_KHR_win32_surface` stops before the instance is created with an empty
adapter list, and its log is the start line, the error line and one formatted
call that passes `LogLevel::Info` directly after the format and the name
`VK_KHR_win32_surface` after that. -/
theorem validateInstance_log_arguments_witness :
    (VulkanDeviceState.construct false exampleNoSurface).createInstanceCalled = false ∧
    (VulkanDeviceState.construct false exampleNoSurface).m_aAdapters = [] ∧
    (VulkanDeviceState.construct false exampleNoSurface).log =
      [LogCall.Log "VulkanDeviceState initialization",
       LogCall.Error ("VulkanDeviceState initialization failed, required " ++
         "instance extensions are unsupported:"),
       LogCall.ErrorFmt "\textension %s is unsupported!"
         [LogArg.level LogLevel.Info, LogArg.name "VK_KHR_win32_surface"]] ∧
    (LogCall.ErrorFmt "\textension %s is unsupported!"
      [LogArg.level LogLevel.Info, LogArg.name "VK_KHR_win32_surface"]).firstArgument
      = some (LogArg.level LogLevel.Info) := by
  have hl : ¬ ∃ l ∈ requiredLayers false, l ∉ exampleNoSurface.layer_properties := by
    simp [requiredLayers]
  have he : ∃ e ∈ requiredExtensions false, e ∉ exampleNoSurface.extension_properties :=
    ⟨"VK_KHR_win32_surface", by simp [requiredExtensions], by simp [exampleNoSurface]⟩
  have h := validateInstance_log_arguments (requiredLayers false) (requiredExtensions false)
    exampleNoSurface
  obtain ⟨names, _, hnd, hmem, hlog, _, _⟩ := h.2.2.2 hl he
  have hnames : names = ["VK_KHR_win32_surface"] := by
    apply nodup_eq_singleton _ names hnd
    intro z
    rw [hmem z]
    simp only [requiredExtensions, exampleNoSurface, if_false, Bool.false_eq_true,
      List.append_nil, List.mem_cons, List.mem_singleton, List.mem_nil_iff, or_false, not_or]
    constructor
    · rintro ⟨h1 | h1 | h1, h2, h3⟩
      · exact absurd h1 h2
      · exact h1
      · exact absurd h1 h3
    · intro hz
      subst hz
      exact ⟨Or.inr (Or.inl rfl), by decide, by decide⟩
  refine ⟨h.1.mpr (Or.inr he), h.2.1 (h.1.mpr (Or.inr he)), ?_, rfl⟩
  unfold VulkanDeviceState.construct
  rw [hlog, hnames]
  rfl

/-! ### Frame renderer -/

theorem Render_counter_le (r : RayTracingRenderer) (scene : FrameState) (newTLAS : Nat) :
    r.mBlasBuilt ≤ (Render r scene newTLAS).1.mBlasBuilt := by
  unfold Render
  by_cases h : r.mBlasBuilt < scene.revision
  · simp only [h, if_true]
    omega
  · simp only [h, if_false]
    omega

theorem renderFrames_counter_le :
    ∀ (frames : List (FrameState × Nat)) (r : RayTracingRenderer),
      r.mBlasBuilt ≤ (renderFrames r frames).1.mBlasBuilt := by
  intro frames
  induction frames with
  | nil =>
    intro r
    exact Nat.le_refl _
  | cons f rest ih =>
    intro r
    obtain ⟨scene, newTLAS⟩ := f
    have h1 := Render_counter_le r scene newTLAS
    have h2 := ih (Render r scene newTLAS).1
    simp only [renderFrames]
    omega

/-- C17: in the frame renderer modelled from the specification, a frame
contains an acceleration-structure build pass only if the scene's revision
differs from the renderer's built counter; the counter starts at 0 and never
decreases, over one frame and over every sequence of frames; and a frame
whose scene revision equals the counter contains no build pass, consists of
the ray-dispatch passes, and leaves counter and top-level structure as they
were. -/
theorem Render_builds_only_on_change (r : RayTracingRenderer) (scene : FrameState)
    (newTLAS : Nat) (frames : List (FrameState × Nat)) :
    ((∃ pass ∈ (Render r scene newTLAS).2, pass.isBuild = true) →
      scene.revision ≠ r.mBlasBuilt) ∧
    RayTracingRenderer.initial.mBlasBuilt = 0 ∧
    r.mBlasBuilt ≤ (Render r scene newTLAS).1.mBlasBuilt ∧
    r.mBlasBuilt ≤ (renderFrames r frames).1.mBlasBuilt ∧
    (scene.revision = r.mBlasBuilt →
      (∀ pass ∈ (Render r scene newTLAS).2, pass.isBuild = false) ∧
      (Render r scene newTLAS).2 = rayDispatchPasses ∧
      (Render r scene newTLAS).1 = r) := by
  have hunchanged : scene.revision = r.mBlasBuilt →
      (∀ pass ∈ (Render r scene newTLAS).2, pass.isBuild = false) ∧
      (Render r scene newTLAS).2 = rayDispatchPasses ∧
      (Render r scene newTLAS).1 = r := by
    intro h
    have hlt : ¬ r.mBlasBuilt < scene.revision := by omega
    have hr : Render r scene newTLAS = (r, rayDispatchPasses) := by
      unfold Render
      rw [if_neg hlt]
    rw [hr]
    refine ⟨?_, rfl, rfl⟩
    intro pass hp
    simp only [rayDispatchPasses, List.mem_cons, List.mem_singleton, List.not_mem_nil,
      or_false] at hp
    rcases hp with rfl | rfl | rfl | rfl | rfl | rfl | rfl <;> rfl
  refine ⟨?_, rfl, Render_counter_le r scene newTLAS, renderFrames_counter_le frames r,
    hunchanged⟩
  rintro ⟨pass, hp, hb⟩ heq
  have := (hunchanged heq).1 pass hp
  rw [this] at hb
  exact absurd hb (by decide)

/-- Witness for C17: after a build at revision 3, a frame of the unchanged
scene has no build pass and keeps the top-level structure 9; a frame at
revision 4 has one, and 4 differs from 3. -/
theorem Render_builds_only_on_change_witness :
    (Render ⟨3, some 9⟩ ⟨3⟩ 10).1 = ⟨3, some 9⟩ ∧
    (∃ pass ∈ (Render ⟨3, some 9⟩ ⟨4⟩ 10).2, pass.isBuild = true) ∧
    (4 : Nat) ≠ 3 := by
  have hb : ∃ pass ∈ (Render ⟨3, some 9⟩ ⟨4⟩ 10).2, pass.isBuild = true :=
    ⟨FramePass.BlasBuild, by decide, rfl⟩
  exact ⟨((Render_builds_only_on_change ⟨3, some 9⟩ ⟨3⟩ 10 []).2.2.2.2 rfl).2.2, hb,
    (Render_builds_only_on_change ⟨3, some 9⟩ ⟨4⟩ 10 []).1 hb⟩

/-! ### The lookup of the last batch entry -/

theorem DispatchToGPU_lookup (buffers : List CommandBufferSubmitInfo)
    (subs : List SubmitInfo)
    (h : transform DispatchToGPU.submitInfo buffers = some subs) :
    DispatchToGPU buffers =
      (match buffers.get? (DispatchToGPU.lastIndex buffers) with
       | none => none
       | some last =>
         match last.mCmdBuffer with
         | none => none
         | some vk_cmd_buffer_ptr =>
           some { submits := subs
                  fence := dynamic_cast_CPU vk_cmd_buffer_ptr.mExecutionFinished }) := by
  unfold DispatchToGPU DispatchToGPU.lastIndex
  rw [h]

/-- C21, counterexample: for the empty list the index `Size() - 1` wraps to
`2 ^ 64 - 1`, which is not below the length 0; the transform of the (empty)
list succeeds, the lookup finds no entry, and `DispatchToGPU` has no defined
result. -/
theorem DispatchToGPU_empty_lookup_out_of_range :
    DispatchToGPU.lastIndex [] = 2 ^ 64 - 1 ∧
    ¬ (DispatchToGPU.lastIndex [] < ([] : List CommandBufferSubmitInfo).length) ∧
    ([] : List CommandBufferSubmitInfo).get? (DispatchToGPU.lastIndex []) = none ∧
    transform DispatchToGPU.submitInfo [] = some [] ∧
    DispatchToGPU [] = none := by
  refine ⟨?_, ?_, ?_, ?_, ?_⟩
  · decide
  · decide
  · rfl
  · rfl
  · rfl

/-- C21, as amended: for every non-empty list of submission descriptors the
index `Size() - 1` that `DispatchToGPU` uses to pick the batch fence is the
position of the last entry, so it is within the list and the lookup yields
the last descriptor; whenever the submissions have been built, the result of
`DispatchToGPU` is decided by the entry found at this index. -/
theorem DispatchToGPU_lookup_in_range (buffers : List CommandBufferSubmitInfo)
    (hne : buffers ≠ []) (hlen : buffers.length < SIZE_MOD) :
    DispatchToGPU.lastIndex buffers = buffers.length - 1 ∧
    DispatchToGPU.lastIndex buffers < buffers.length ∧
    buffers.get? (DispatchToGPU.lastIndex buffers) = some (buffers.getLast hne) ∧
    (∀ subs, transform DispatchToGPU.submitInfo buffers = some subs →
      DispatchToGPU buffers =
        (match (buffers.getLast hne).mCmdBuffer with
         | none => none
         | some vk_cmd_buffer_ptr =>
           some { submits := subs
                  fence := dynamic_cast_CPU vk_cmd_buffer_ptr.mExecutionFinished })) := by
  have hpos : 0 < buffers.length := List.length_pos.mpr hne
  have hidx : DispatchToGPU.lastIndex buffers = buffers.length - 1 := by
    unfold DispatchToGPU.lastIndex
    exact last_index _ hpos hlen
  have hget : buffers.get? (DispatchToGPU.lastIndex buffers) = some (buffers.getLast hne) := by
    rw [hidx, List.get?_eq_getElem?, ← List.getLast?_eq_getElem?,
      List.getLast?_eq_getLast _ hne]
  refine ⟨hidx, by omega, hget, ?_⟩
  intro subs hsubs
  rw [DispatchToGPU_lookup buffers subs hsubs, hget]

/-- Witness for C21 as amended, on `exampleBatch`: the index is 1, the
position of the second of its two descriptors. -/
theorem DispatchToGPU_lookup_in_range_witness :
    exampleBatch ≠ [] ∧ exampleBatch.length < SIZE_MOD ∧
    DispatchToGPU.lastIndex exampleBatch = 1 ∧
    DispatchToGPU.lastIndex exampleBatch < exampleBatch.length := by
  have hne : exampleBatch ≠ [] := by simp [exampleBatch]
  have hlen : exampleBatch.length < SIZE_MOD := by simp [exampleBatch, SIZE_MOD]
  obtain ⟨h1, h2, _⟩ := DispatchToGPU_lookup_in_range exampleBatch hne hlen
  refine ⟨hne, hlen, ?_, h2⟩
  rw [h1]
  rfl

end rh.engine
